import Mathlib

/-!
# Smart civic portal: complaint intake

A shallow embedding of `handleSubmit` from
`src/pages/citizen/SubmitComplaint.jsx` (the duplicate check, the nearby
count and the priority assignment), of `handleSubmit` from
`src/pages/public/Register.jsx` and of the counters and the status filter of
the two dashboards, followed by the properties proved of them.

Conventions of the embedding.

* A JavaScript number is a `JsNum`: a finite value (every finite double is a
  rational), one of the two infinities, or NaN.  The code only ever compares
  a distance with the literals `100` and `250`; that comparison is exact on
  doubles, and `JsNum.le` follows it (a comparison with NaN is false).
* `calculateDistance` is imported from `utils/geo`, and `toLowerCase`/`trim`
  are string built-ins of the JavaScript engine.  None of the three is
  defined in the files embedded here, so they are fields of `Runtime` and
  every theorem holds for all of them (where a theorem needs a fact about a
  built-in, the fact is a hypothesis of the theorem).
* A stored document is read with `doc.data()`; the fields `title` and
  `location` may be absent (`data.title?.…`, `if (data.location)`), hence
  `Option`.
* The counter `nearbyCount` is a `Nat`: it is incremented at most once per
  snapshot entry and stays far below 2^53.
-/

namespace CivicPortal

/-! ## Data model -/

/-- A JavaScript number. -/
inductive JsNum where
  | nan
  | negInf
  | num (q : ℚ)
  | posInf
  deriving DecidableEq

namespace JsNum

/-- The JavaScript comparison `a <= b`. -/
def le : JsNum → JsNum → Bool
  | nan, _ => false
  | _, nan => false
  | negInf, _ => true
  | _, posInf => true
  | num a, num b => decide (a ≤ b)
  | num _, negInf => false
  | posInf, num _ => false
  | posInf, negInf => false

/-- The numeric literal `n` of the source. -/
def lit (n : Nat) : JsNum := num (n : ℚ)

end JsNum

/-- The component state `position`, as set from a Leaflet `latlng`. -/
structure LatLng where
  lat : JsNum
  lng : JsNum
  deriving DecidableEq

/-- A Firestore `GeoPoint`. -/
structure GeoPoint where
  latitude : JsNum
  longitude : JsNum
  deriving DecidableEq

/-- The three priority labels assigned by `handleSubmit`. -/
inductive Priority where
  | Low
  | Medium
  | High
  deriving DecidableEq, Repr

namespace Priority

/-- The string written to the store and shown to the user. -/
def label : Priority → String
  | Low => "Low"
  | Medium => "Medium"
  | High => "High"

/-- Position in the order Low < Medium < High. -/
def rank : Priority → Nat
  | Low => 0
  | Medium => 1
  | High => 2

instance : LE Priority := ⟨fun a b => a.rank ≤ b.rank⟩

instance (a b : Priority) : Decidable (a ≤ b) :=
  inferInstanceAs (Decidable (a.rank ≤ b.rank))

end Priority

/-- The fields of a complaint document, as returned by `doc.data()`.  The
fields `title` and `location` are the two that `handleSubmit` reads. -/
structure ComplaintData where
  title : Option String
  location : Option GeoPoint
  status : String := "Pending"
  priority : String := "Low"
  citizenId : String := ""
  category : String := ""
  description : String := ""
  imageUrl : String := ""
  deriving DecidableEq

/-- A document of a query snapshot: its identifier and its data. -/
structure Doc where
  id : String
  data : ComplaintData
  deriving DecidableEq

/-- What `handleSubmit` calls but the embedded files do not define. -/
structure Runtime where
  /-- The built-in `String.prototype.toLowerCase`. -/
  toLowerCase : String → String
  /-- The built-in `String.prototype.trim`. -/
  trim : String → String
  /-- The function `calculateDistance(lat1, lng1, lat2, lng2)` of `utils/geo`, in meters. -/
  calculateDistance : JsNum → JsNum → JsNum → JsNum → JsNum

/-! ## The intake step of `handleSubmit` -/

/-- The expression `s.toLowerCase().trim()`. -/
def normalize (rt : Runtime) (s : String) : String :=
  rt.trim (rt.toLowerCase s)

/-- The local `dist` of the loop body, for an entry that has a location. -/
def distTo (rt : Runtime) (position : LatLng) (loc : GeoPoint) : JsNum :=
  rt.calculateDistance position.lat position.lng loc.latitude loc.longitude

/-- The local `titleMatches`:
`data.title?.toLowerCase().trim() === title.toLowerCase().trim()`.
An absent title gives `undefined`, which is not `===` to any string. -/
def titleMatches (rt : Runtime) (title : String) (data : ComplaintData) : Bool :=
  match data.title with
  | none => false
  | some t => decide (normalize rt t = normalize rt title)

/-- The two locals `isDuplicate` and `nearbyCount` that the loop updates. -/
structure ScanState where
  isDuplicate : Bool
  nearbyCount : Nat
  deriving DecidableEq, Repr

/-- One run of the callback passed to `snapshot.forEach`. -/
def scanStep (rt : Runtime) (title : String) (position : LatLng)
    (acc : ScanState) (doc : Doc) : ScanState :=
  match doc.data.location with
  | none => acc
  | some loc =>
    let dist := distTo rt position loc
    let locationMatches := dist.le (JsNum.lit 100)
    let acc1 : ScanState :=
      if titleMatches rt title doc.data && locationMatches then
        { acc with isDuplicate := true }
      else acc
    if dist.le (JsNum.lit 250) then
      { acc1 with nearbyCount := acc1.nearbyCount + 1 }
    else acc1

/-- The loop `snapshot.forEach(doc => …)`, started from
`isDuplicate = false`, `nearbyCount = 0`. -/
def scan (rt : Runtime) (title : String) (position : LatLng)
    (snapshot : List Doc) : ScanState :=
  snapshot.foldl (scanStep rt title position) ⟨false, 0⟩

/-- The expression
`nearbyCount >= 6 ? 'High' : nearbyCount >= 3 ? 'Medium' : 'Low'`. -/
def priorityOf (nearbyCount : Nat) : Priority :=
  if nearbyCount ≥ 6 then Priority.High
  else if nearbyCount ≥ 3 then Priority.Medium
  else Priority.Low

/-- The message passed to `setError` when a duplicate is found. -/
def duplicateMessage (title : String) : String :=
  "An issue with the title \"" ++ title ++
    "\" has already been reported at this exact location."

/-- How the intake step ends: `handleSubmit` either sets an error message and
returns, or goes on to persist the report with a priority. -/
inductive IntakeDecision where
  | rejected (error : String)
  | accepted (priority : Priority)
  deriving DecidableEq, Repr

/-- Lines 80–110 of `handleSubmit`: the loop, the `if (isDuplicate)` exit and
the priority expression. -/
def intake (rt : Runtime) (title : String) (position : LatLng)
    (snapshot : List Doc) : IntakeDecision :=
  let s := scan rt title position snapshot
  if s.isDuplicate then IntakeDecision.rejected (duplicateMessage title)
  else IntakeDecision.accepted (priorityOf s.nearbyCount)

/-! ## A predicate on snapshot entries, in the words of the specification -/

/-- The entry has a location, and its distance from the candidate position is
at most `r` meters. -/
def withinMeters (rt : Runtime) (position : LatLng) (r : Nat) (doc : Doc) : Bool :=
  match doc.data.location with
  | none => false
  | some loc => (distTo rt position loc).le (JsNum.lit r)

/-! ## The whole of `handleSubmit` -/

/-- How an awaited call ends: it resolves with a value, it throws (the string
is `err.message`), or it never settles. -/
inductive Await (α : Type) where
  | resolved (value : α)
  | rejected (message : String)
  | pending
  deriving DecidableEq

/-- The state of the `SubmitComplaint` component that `handleSubmit` reads or
writes, with `currentUser` from `useAuth()` (its `uid`). -/
structure Component where
  title : String
  category : String
  description : String
  image : Option String
  position : LatLng
  loading : Bool
  error : String
  success : String
  currentUser : Option String
  deriving DecidableEq

/-- What one call of `handleSubmit` does outside the component state. -/
structure Effects where
  /-- Whether `getDocs(activeQuery)` was called. -/
  fetched : Bool
  /-- The record passed to `addDoc`, when it was called. -/
  addDoc : Option ComplaintData
  /-- The route scheduled with `setTimeout(() => navigate(…), 2000)`. -/
  navigate : Option String
  deriving DecidableEq

/-- The `catch` block followed by the `finally` block. -/
def caught (c : Component) (message : String) : Component :=
  { c with error := "Error: " ++ message, loading := false }

/-- The function `handleSubmit`.  The three awaited calls are the external
store and the browser; how each of them ends is an argument:
`fetch` for `getDocs(activeQuery)`, `compressed` for `compressImage(image)`
and `added` for `addDoc(…)`.  `geoPoint` is the Firestore constructor
`new GeoPoint(lat, lng)`, which may throw. -/
def handleSubmit (rt : Runtime)
    (geoPoint : JsNum → JsNum → Except String GeoPoint)
    (c : Component) (fetch : Await (List Doc))
    (compressed : Await String) (added : Await String) : Component × Effects :=
  match c.image with
  | none => ({ c with error := "Please upload a photo of the issue." }, ⟨false, none, none⟩)
  | some _ =>
  match c.currentUser with
  | none => ({ c with error := "You must be logged in to submit a report." }, ⟨false, none, none⟩)
  | some uid =>
    let c1 : Component := { c with loading := true, error := "" }
    match fetch with
    | Await.pending => (c1, ⟨true, none, none⟩)
    | Await.rejected m => (caught c1 m, ⟨true, none, none⟩)
    | Await.resolved snapshot =>
      match intake rt c.title c.position snapshot with
      | IntakeDecision.rejected msg =>
        ({ c1 with error := msg, loading := false }, ⟨true, none, none⟩)
      | IntakeDecision.accepted priority =>
        match compressed with
        | Await.pending => (c1, ⟨true, none, none⟩)
        | Await.rejected m => (caught c1 m, ⟨true, none, none⟩)
        | Await.resolved base64Image =>
          match geoPoint c.position.lat c.position.lng with
          | Except.error m => (caught c1 m, ⟨true, none, none⟩)
          | Except.ok location =>
            let record : ComplaintData :=
              { citizenId := uid
                title := some c.title
                category := c.category
                description := c.description
                imageUrl := base64Image
                location := some location
                status := "Pending"
                priority := priority.label }
            match added with
            | Await.pending => (c1, ⟨true, some record, none⟩)
            | Await.rejected m => (caught c1 m, ⟨true, some record, none⟩)
            | Await.resolved _ =>
              ({ c1 with
                  success := "Report successfully submitted! Priority: " ++ priority.label
                  loading := false },
                ⟨true, some record, some "/citizen/dashboard"⟩)

/-! ## A concrete runtime for the examples

The examples below place the candidate and the stored complaints on one
street and measure along it: a coordinate's first component is the position
on the street in meters.  Titles in the examples are ASCII, on which the
two string functions below act as the JavaScript built-ins do. -/

/-- Lower-casing of the letters A–Z. -/
def asciiLower (s : String) : String :=
  String.mk (s.data.map Char.toLower)

/-- Removal of leading and trailing blanks, tabs and line breaks. -/
def asciiTrim (s : String) : String :=
  String.mk ((s.data.dropWhile Char.isWhitespace).reverse.dropWhile Char.isWhitespace).reverse

/-- Distance along the street: the absolute difference of the two positions. -/
def streetDistance : JsNum → JsNum → JsNum → JsNum → JsNum
  | JsNum.num a, _, JsNum.num b, _ => JsNum.num (if a ≤ b then b - a else a - b)
  | _, _, _, _ => JsNum.nan

/-- The runtime used in the examples. -/
def streetRuntime : Runtime :=
  { toLowerCase := asciiLower
    trim := asciiTrim
    calculateDistance := streetDistance }

/-- A stored complaint with the given identifier and title, `meters` along
the street. -/
def reportAt (id title : String) (meters : Nat) : Doc :=
  { id := id
    data := { title := some title, location := some ⟨JsNum.lit meters, JsNum.lit 0⟩ } }

/-- The candidate's pin: the start of the street. -/
def origin : LatLng := ⟨JsNum.lit 0, JsNum.lit 0⟩

/-- A stand-in for the Firestore constructor `new GeoPoint(lat, lng)`, which
throws unless the latitude lies in [-90, 90] and the longitude in
[-180, 180]. -/
def checkedGeoPoint (lat lng : JsNum) : Except String GeoPoint :=
  if (JsNum.num (-90)).le lat && lat.le (JsNum.num 90) then
    if (JsNum.num (-180)).le lng && lng.le (JsNum.num 180) then Except.ok ⟨lat, lng⟩
    else Except.error "Longitude must be a number between -180 and 180"
  else Except.error "Latitude must be a number between -90 and 90"

/-- Three reports with other titles, each 150 m from the origin. -/
def threeNearby : List Doc :=
  [reportAt "a" "Broken lamp" 150, reportAt "b" "Fallen tree" 150,
    reportAt "c" "Open manhole" 150]

/-- Two reports with other titles, each 150 m from the origin. -/
def twoNearby : List Doc :=
  [reportAt "a" "Broken lamp" 150, reportAt "b" "Fallen tree" 150]

/-- Seven reports with other titles, all within 250 m of the origin. -/
def sevenNearby : List Doc :=
  [reportAt "a" "Broken lamp" 10, reportAt "b" "Fallen tree" 50,
    reportAt "c" "Open manhole" 90, reportAt "d" "Garbage pile" 120,
    reportAt "e" "Water leak" 200, reportAt "f" "Stray cattle" 240,
    reportAt "g" "Faded crossing" 250]

/-- A filled-in form of a logged-in citizen, pinned at the origin. -/
def potholeForm : Component :=
  { title := "Pothole on Main St"
    category := "Roads & Infrastructure"
    description := "Deep pothole near the bus stop"
    image := some "photo-1.jpg"
    position := origin
    loading := false
    error := ""
    success := ""
    currentUser := some "uid-1" }

/-- The same title and pin submitted by another citizen, with another
category, description and photo. -/
def potholeFormOther : Component :=
  { potholeForm with
    category := "Other"
    description := "Hole in the road"
    image := some "photo-2.jpg"
    currentUser := some "uid-2" }

/-! ## The string built-ins, as far as ECMAScript fixes them without tables -/

/-- The code points that `String.prototype.trim` removes: the ECMAScript
WhiteSpace and LineTerminator productions (TAB, LF, VT, FF, CR, space,
NBSP, U+1680, U+2000–U+200A, U+2028, U+2029, U+202F, U+205F, U+3000 and
U+FEFF). -/
def jsWhiteSpace (c : Char) : Bool :=
  let n := c.toNat
  n == 0x09 || n == 0x0A || n == 0x0B || n == 0x0C || n == 0x0D || n == 0x20 ||
  n == 0xA0 || n == 0x1680 || (0x2000 ≤ n && n ≤ 0x200A) || n == 0x2028 || n == 0x2029 ||
  n == 0x202F || n == 0x205F || n == 0x3000 || n == 0xFEFF

/-- Removal of the leading and of the trailing white space of a character
sequence. -/
def trimChars (l : List Char) : List Char :=
  ((l.dropWhile jsWhiteSpace).reverse.dropWhile jsWhiteSpace).reverse

/-- The built-in `String.prototype.trim`. -/
def jsTrim (s : String) : String :=
  String.mk (trimChars s.data)

/-- The street runtime with the ECMAScript `trim`; its `toLowerCase` is that of
the JavaScript engine on titles whose letters are ASCII. -/
def asciiRuntime : Runtime :=
  { toLowerCase := asciiLower
    trim := jsTrim
    calculateDistance := streetDistance }

/-! ## The store -/

/-- The query of line 77, `where('status', 'in', ['Pending', 'In Progress'])`,
run on the documents of the `complaints` collection. -/
def activeQuery (store : List Doc) : List Doc :=
  store.filter (fun doc => doc.data.status == "Pending" || doc.data.status == "In Progress")

/-- The collection after a call of `handleSubmit` with the given effects, when
the document created by `addDoc` got the identifier `id`. -/
def storeAfter (store : List Doc) (id : String) (eff : Effects) : List Doc :=
  match eff.addDoc with
  | none => store
  | some record => store ++ [⟨id, record⟩]

/-- Two calls of `handleSubmit` in flight at the same time, both `getDocs`
resolving before either `addDoc` is issued: the two runs classify against the
same snapshot of the initial collection.  The result holds the outcome of
each run and the collection after both. -/
def submitBothConcurrently (rt : Runtime)
    (geoPoint : JsNum → JsNum → Except String GeoPoint) (store : List Doc)
    (cA cB : Component) (imgA imgB idA idB : String) :
    (Component × Effects) × (Component × Effects) × List Doc :=
  let snapshot := activeQuery store
  let rA := handleSubmit rt geoPoint cA (Await.resolved snapshot)
    (Await.resolved imgA) (Await.resolved idA)
  let rB := handleSubmit rt geoPoint cB (Await.resolved snapshot)
    (Await.resolved imgB) (Await.resolved idB)
  (rA, rB, storeAfter (storeAfter store idA rA.2) idB rB.2)

/-! ## The classifier as the specification words it -/

/-- The configuration surface of specification §6. -/
structure SpecConfig where
  duplicateRadiusMeters : Nat
  densityRadiusMeters : Nat
  highPriorityThreshold : Nat
  mediumPriorityThreshold : Nat
  deriving DecidableEq, Repr

/-- The default values of specification §6. -/
def specDefaults : SpecConfig :=
  { duplicateRadiusMeters := 100
    densityRadiusMeters := 250
    highPriorityThreshold := 6
    mediumPriorityThreshold := 3 }

/-- The classifier of specification §4.2, steps 3 to 6, reading its radii and
breakpoints from a configuration. -/
def specClassify (cfg : SpecConfig) (rt : Runtime) (title : String) (position : LatLng)
    (snapshot : List Doc) : IntakeDecision :=
  if snapshot.any (fun entry =>
      titleMatches rt title entry.data &&
        withinMeters rt position cfg.duplicateRadiusMeters entry) then
    IntakeDecision.rejected (duplicateMessage title)
  else
    let nearbyCount := snapshot.countP (withinMeters rt position cfg.densityRadiusMeters)
    IntakeDecision.accepted
      (if nearbyCount ≥ cfg.highPriorityThreshold then Priority.High
       else if nearbyCount ≥ cfg.mediumPriorityThreshold then Priority.Medium
       else Priority.Low)

/-- The coordinate invariant of specification §3: latitude in [-90, 90] and
longitude in [-180, 180]. -/
def validCoordinate (lat lng : JsNum) : Bool :=
  (JsNum.num (-90)).le lat && lat.le (JsNum.num 90) &&
    (JsNum.num (-180)).le lng && lng.le (JsNum.num 180)

/-- The rejection reason of specification §4.2, step 3. -/
def specReason : String :=
  "duplicate of an active report with the same title within 100 meters"

/-- The pothole form with the pin moved to longitude 190, east of the
antimeridian on a map panned past it. -/
def outOfRangeForm : Component :=
  { potholeForm with position := ⟨JsNum.lit 0, JsNum.lit 190⟩ }

/-! ## Submissions one after the other -/

/-- One call of `handleSubmit` run to its end before anything else touches the
collection: `getDocs` resolves with the result of the query on the current
collection, image compression resolves with `img`, and `addDoc`, when it is
called, resolves with the new identifier `id`.  The result holds the outcome
of the run and the collection afterwards. -/
def submit (rt : Runtime) (geoPoint : JsNum → JsNum → Except String GeoPoint)
    (store : List Doc) (c : Component) (img id : String) :
    (Component × Effects) × List Doc :=
  let r := handleSubmit rt geoPoint c (Await.resolved (activeQuery store))
    (Await.resolved img) (Await.resolved id)
  (r, storeAfter store id r.2)

/-- The normalization of specification §4.2, step 1, in the order written
there: trim, then lower-case. -/
def specNormalize (rt : Runtime) (s : String) : String :=
  rt.toLowerCase (rt.trim s)

/-- The pothole form before a photo was chosen. -/
def formWithoutPhoto : Component :=
  { potholeForm with image := none }

/-- The pothole form of a visitor who is not logged in. -/
def formWithoutUser : Component :=
  { potholeForm with currentUser := none }

/-! ## `Register.jsx` -/

/-- The constant `SECRET_ADMIN_KEY` of `Register`. -/
def Register.SECRET_ADMIN_KEY : String := "123456789"

/-- The state of the `Register` component. -/
structure Register.State where
  name : String
  email : String
  password : String
  role : String
  adminCode : String
  error : String
  loading : Bool
  deriving DecidableEq

/-- What one call of `Register`'s `handleSubmit` does outside the component
state. -/
structure Register.Effects where
  /-- The arguments `(email, password, name, role)` of `signup`, when it was
  called. -/
  signup : Option (String × String × String × String)
  /-- The route passed to `navigate`, when it was called. -/
  navigate : Option String
  deriving DecidableEq

/-- The function `handleSubmit` of `Register.jsx`.  The function `signup` comes
from the authentication context; how the awaited call ends is the argument
`signedUp`. -/
def Register.handleSubmit (s : Register.State) (signedUp : Await Unit) :
    Register.State × Register.Effects :=
  if s.role = "admin" ∧ s.adminCode ≠ Register.SECRET_ADMIN_KEY then
    ({ s with error := "Invalid Official Access Code. Registration denied." }, ⟨none, none⟩)
  else
    let s1 : Register.State := { s with error := "", loading := true }
    match signedUp with
    | Await.pending => (s1, ⟨some (s.email, s.password, s.name, s.role), none⟩)
    | Await.rejected _ =>
      ({ s1 with
          error := "Registration failed. Please check your details or connection."
          loading := false },
        ⟨some (s.email, s.password, s.name, s.role), none⟩)
    | Await.resolved _ =>
      ({ s1 with loading := false },
        ⟨some (s.email, s.password, s.name, s.role),
          some (if s.role = "admin" then "/admin/dashboard" else "/citizen/submit")⟩)

/-- A registration form filled in by an official, with the admin code left
to choose. -/
def officialForm (adminCode : String) : Register.State :=
  { name := "Asha"
    email := "asha@city.example"
    password := "correct horse"
    role := "admin"
    adminCode := adminCode
    error := ""
    loading := false }

/-! ## The dashboards -/

/-- An element of `reports` or `complaints`: `{ id: doc.id, ...doc.data() }`,
with the two fields the counters and the filter read.  Either field may be
absent from the document. -/
structure Report where
  id : String
  status : Option String
  priority : Option String
  deriving DecidableEq

/-- The object `stats` of `CitizenDashboard`. -/
structure CitizenDashboard.Stats where
  total : Nat
  resolved : Nat
  inProgress : Nat
  pending : Nat
  deriving DecidableEq, Repr

/-- The constant `stats` of `CitizenDashboard` (lines 109–114). -/
def CitizenDashboard.stats (reports : List Report) : CitizenDashboard.Stats :=
  { total := reports.length
    resolved := (reports.filter (fun r => r.status == some "Resolved")).length
    inProgress := (reports.filter (fun r => r.status == some "In Progress")).length
    pending := (reports.filter (fun r => r.status == some "Pending")).length }

/-- The constant `filteredReports` of `CitizenDashboard`:
`filter ? reports.filter(r => r.status === filter) : reports`.  The state
`filter` is `null` or a string; `null` and the empty string are falsy. -/
def CitizenDashboard.filteredReports (filter : Option String) (reports : List Report) :
    List Report :=
  match filter with
  | none => reports
  | some f => if f = "" then reports else reports.filter (fun r => r.status == some f)

/-- The function `handleFilterClick` of `CitizenDashboard`, as the new value
of the state `filter`. -/
def CitizenDashboard.handleFilterClick (filter : Option String) (filterType : String) :
    Option String :=
  if filter = some filterType then none else some filterType

/-- The object `stats` of `AdminDashboard`. -/
structure AdminDashboard.Stats where
  total : Nat
  pending : Nat
  resolved : Nat
  high : Nat
  deriving DecidableEq, Repr

/-- The constant `stats` of `AdminDashboard` (lines 46–51). -/
def AdminDashboard.stats (complaints : List Report) : AdminDashboard.Stats :=
  { total := complaints.length
    pending := (complaints.filter (fun c => c.status == some "Pending")).length
    resolved := (complaints.filter (fun c => c.status == some "Resolved")).length
    high := (complaints.filter (fun c =>
      c.priority == some "High" && c.status != some "Resolved")).length }

/-- Five reports of one citizen, one of them without a status. -/
def sampleReports : List Report :=
  [⟨"r1", some "Pending", some "Low"⟩, ⟨"r2", some "Resolved", some "High"⟩,
    ⟨"r3", some "In Progress", some "High"⟩, ⟨"r4", some "Pending", some "Medium"⟩,
    ⟨"r5", none, some "High"⟩]

/-- Six reports with the candidate's title, each 150 m from the origin. -/
def sixSameTitleFar : List Doc :=
  [reportAt "s1" "Pothole on Main St" 150, reportAt "s2" "pothole on main st" 150,
    reportAt "s3" "POTHOLE ON MAIN ST" 150, reportAt "s4" " Pothole on Main St" 150,
    reportAt "s5" "Pothole on Main St " 150, reportAt "s6" "Pothole On Main St" 150]

/-! ## Auxiliary lemmas -/

theorem JsNum.le_lit_mono (d : JsNum) {a b : Nat} (hab : a ≤ b)
    (h : d.le (JsNum.lit a) = true) : d.le (JsNum.lit b) = true := by
  cases d with
  | nan => simp [JsNum.le] at h
  | negInf => simp [JsNum.le, JsNum.lit]
  | posInf => simp [JsNum.le, JsNum.lit] at h
  | num q =>
    simp only [JsNum.le, JsNum.lit, decide_eq_true_eq] at h ⊢
    exact le_trans h (by exact_mod_cast hab)

theorem withinMeters_mono (rt : Runtime) (position : LatLng) (doc : Doc) {a b : Nat}
    (hab : a ≤ b) (h : withinMeters rt position a doc = true) :
    withinMeters rt position b doc = true := by
  unfold withinMeters at h ⊢
  cases hl : doc.data.location with
  | none => simp [hl] at h
  | some loc =>
    simp only [hl] at h ⊢
    exact JsNum.le_lit_mono _ hab h

/-- One loop iteration, in closed form. -/
theorem scanStep_eq (rt : Runtime) (title : String) (position : LatLng)
    (acc : ScanState) (doc : Doc) :
    scanStep rt title position acc doc =
      ⟨acc.isDuplicate ||
          (titleMatches rt title doc.data && withinMeters rt position 100 doc),
        acc.nearbyCount + (if withinMeters rt position 250 doc = true then 1 else 0)⟩ := by
  unfold scanStep withinMeters
  cases hl : doc.data.location with
  | none => simp
  | some loc =>
    simp only []
    by_cases h1 : (titleMatches rt title doc.data &&
        (distTo rt position loc).le (JsNum.lit 100)) = true <;>
      by_cases h2 : (distTo rt position loc).le (JsNum.lit 250) = true <;>
      simp [h1, h2]

/-- The loop from any starting state, in closed form. -/
theorem foldl_scanStep (rt : Runtime) (title : String) (position : LatLng)
    (snapshot : List Doc) (acc : ScanState) :
    snapshot.foldl (scanStep rt title position) acc =
      ⟨acc.isDuplicate || snapshot.any (fun doc =>
          titleMatches rt title doc.data && withinMeters rt position 100 doc),
        acc.nearbyCount + snapshot.countP (withinMeters rt position 250)⟩ := by
  induction snapshot generalizing acc with
  | nil => simp
  | cons doc rest ih =>
    rw [List.foldl_cons, ih, scanStep_eq]
    by_cases h : withinMeters rt position 250 doc = true
    · simp [h, List.countP_cons, Bool.or_assoc, Nat.add_assoc, Nat.add_comm 1]
    · simp [h, List.countP_cons, Bool.or_assoc]

theorem scan_isDuplicate (rt : Runtime) (title : String) (position : LatLng)
    (snapshot : List Doc) :
    (scan rt title position snapshot).isDuplicate =
      snapshot.any (fun doc =>
        titleMatches rt title doc.data && withinMeters rt position 100 doc) := by
  simp [scan, foldl_scanStep]

theorem scan_nearbyCount (rt : Runtime) (title : String) (position : LatLng)
    (snapshot : List Doc) :
    (scan rt title position snapshot).nearbyCount =
      snapshot.countP (withinMeters rt position 250) := by
  simp [scan, foldl_scanStep]

theorem withinMeters_iff (rt : Runtime) (position : LatLng) (r : Nat) (doc : Doc) :
    withinMeters rt position r doc = true ↔
      ∃ loc, doc.data.location = some loc ∧
        (distTo rt position loc).le (JsNum.lit r) = true := by
  unfold withinMeters
  cases doc.data.location <;> simp

theorem titleMatches_iff (rt : Runtime) (title : String) (doc : Doc) :
    titleMatches rt title doc.data = true ↔
      ∃ t, doc.data.title = some t ∧ normalize rt t = normalize rt title := by
  unfold titleMatches
  cases doc.data.title <;> simp

theorem intake_eq (rt : Runtime) (title : String) (position : LatLng)
    (snapshot : List Doc) :
    intake rt title position snapshot =
      if snapshot.any (fun doc =>
          titleMatches rt title doc.data && withinMeters rt position 100 doc) = true then
        IntakeDecision.rejected (duplicateMessage title)
      else
        IntakeDecision.accepted (priorityOf (snapshot.countP (withinMeters rt position 250))) := by
  simp only [intake, scan_isDuplicate, scan_nearbyCount]

/-- Splitting a count by a second predicate. -/
theorem countP_split (p q : Doc → Bool) (l : List Doc) :
    l.countP p = l.countP (fun d => q d && p d) + l.countP (fun d => !q d && p d) := by
  induction l with
  | nil => simp
  | cons d rest ih =>
    simp only [List.countP_cons, ih]
    cases q d <;> cases p d <;> simp <;> omega

theorem priorityOf_mono {m n : Nat} (h : m ≤ n) : priorityOf m ≤ priorityOf n := by
  show (priorityOf m).rank ≤ (priorityOf n).rank
  unfold priorityOf
  split_ifs <;> simp [Priority.rank] <;> omega

/-- On the street, a report is within `r` meters of the origin exactly when
its position is at most `r`. -/
theorem withinMeters_reportAt (id title : String) (meters r : Nat) :
    withinMeters streetRuntime origin r (reportAt id title meters) = decide (meters ≤ r) := by
  simp [withinMeters, reportAt, origin, distTo, streetRuntime, streetDistance,
    JsNum.lit, JsNum.le]

theorem titleMatches_reportAt (id title t : String) (meters : Nat) :
    titleMatches streetRuntime title (reportAt id t meters).data =
      decide (asciiTrim (asciiLower t) = asciiTrim (asciiLower title)) := by
  simp [titleMatches, reportAt, normalize, streetRuntime]

/-- Without a duplicate entry the submission is accepted, with the priority
of the number of entries within 250 m. -/
theorem intake_of_no_duplicate (rt : Runtime) (title : String) (position : LatLng)
    (snapshot : List Doc)
    (h : ∀ doc ∈ snapshot,
      (titleMatches rt title doc.data && withinMeters rt position 100 doc) = false) :
    intake rt title position snapshot =
      IntakeDecision.accepted (priorityOf (snapshot.countP (withinMeters rt position 250))) := by
  rw [intake_eq]
  have hany : snapshot.any (fun doc =>
      titleMatches rt title doc.data && withinMeters rt position 100 doc) = false := by
    rw [List.any_eq_false]
    intro doc hmem
    simp [h doc hmem]
  simp [hany]

theorem duplicateMessage_ne_empty (title : String) : duplicateMessage title ≠ "" := by
  intro h
  have hd := congrArg String.data h
  simp [duplicateMessage, String.data_append] at hd

theorem duplicateMessage_ne_error (title m : String) :
    duplicateMessage title ≠ "Error: " ++ m := by
  intro h
  have hd := congrArg String.data h
  simp [duplicateMessage, String.data_append] at hd

/-- The run of `handleSubmit` once both guards have passed and the fetch has
resolved, by the outcome of the intake step: a rejection. -/
theorem handleSubmit_of_rejected (rt : Runtime)
    (geoPoint : JsNum → JsNum → Except String GeoPoint) (c : Component)
    (snapshot : List Doc) (compressed added : Await String) (img uid msg : String)
    (hi : c.image = some img) (hu : c.currentUser = some uid)
    (hd : intake rt c.title c.position snapshot = IntakeDecision.rejected msg) :
    handleSubmit rt geoPoint c (Await.resolved snapshot) compressed added =
      ({ c with error := msg, loading := false }, ⟨true, none, none⟩) := by
  simp only [handleSubmit, hi, hu, hd]

/-- After an accepted intake step the error is empty or a caught exception, and
a record handed to `addDoc` carries the label of the computed priority. -/
theorem handleSubmit_of_accepted (rt : Runtime)
    (geoPoint : JsNum → JsNum → Except String GeoPoint) (c : Component)
    (snapshot : List Doc) (compressed added : Await String) (img uid : String)
    (p : Priority)
    (hi : c.image = some img) (hu : c.currentUser = some uid)
    (hd : intake rt c.title c.position snapshot = IntakeDecision.accepted p) :
    ((handleSubmit rt geoPoint c (Await.resolved snapshot) compressed added).1.error = "" ∨
      ∃ m, (handleSubmit rt geoPoint c (Await.resolved snapshot) compressed added).1.error =
        "Error: " ++ m) ∧
    ∀ r, (handleSubmit rt geoPoint c (Await.resolved snapshot) compressed added).2.addDoc =
      some r → r.priority = p.label := by
  simp only [handleSubmit, hi, hu, hd]
  cases compressed with
  | pending => simp
  | rejected m => simp [caught]
  | resolved b =>
    cases hg : geoPoint c.position.lat c.position.lng with
    | error m => simp [caught]
    | ok loc =>
      cases added with
      | pending => simp
      | rejected m =>
        simp only [caught]
        refine ⟨Or.inr ⟨m, rfl⟩, ?_⟩
        intro r hr
        simp only [Option.some.injEq] at hr
        rw [← hr]
      | resolved v => simp

theorem intake_rejected_message (rt : Runtime) (title : String) (position : LatLng)
    (snapshot : List Doc) (msg : String)
    (h : intake rt title position snapshot = IntakeDecision.rejected msg) :
    msg = duplicateMessage title := by
  unfold intake at h
  simp only [] at h
  split at h
  · injection h with h
    exact h.symm
  · cases h

/-! ### White space and letter case -/

theorem toLower_of_jsWhiteSpace (c : Char) (h : jsWhiteSpace c = true) : c.toLower = c := by
  have hn : ¬ (c.toNat ≥ 65 ∧ c.toNat ≤ 90) := by
    simp [jsWhiteSpace] at h
    omega
  simp only [Char.toLower, hn, if_false]

theorem dropWhile_append_of_all {p : Char → Bool} (l m : List Char)
    (h : ∀ c ∈ l, p c = true) : (l ++ m).dropWhile p = m.dropWhile p := by
  induction l with
  | nil => rfl
  | cons a rest ih =>
    have ha : p a = true := h a (List.mem_cons_self _ _)
    rw [List.cons_append, List.dropWhile_cons_of_pos ha]
    exact ih (fun c hc => h c (List.mem_cons_of_mem _ hc))

theorem dropWhile_append_of_exists {p : Char → Bool} (l m : List Char)
    (h : ∃ c ∈ l, p c = false) : (l ++ m).dropWhile p = l.dropWhile p ++ m := by
  induction l with
  | nil => simp at h
  | cons a rest ih =>
    cases ha : p a with
    | false => simp [List.dropWhile, ha]
    | true =>
      rw [List.cons_append, List.dropWhile_cons_of_pos ha, List.dropWhile_cons_of_pos ha]
      apply ih
      obtain ⟨c, hc, hpc⟩ := h
      rcases List.mem_cons.mp hc with rfl | hc
      · rw [ha] at hpc; cases hpc
      · exact ⟨c, hc, hpc⟩

/-- White space added in front and at the end is removed by trimming. -/
theorem trimChars_pad (l x r : List Char) (hl : ∀ c ∈ l, jsWhiteSpace c = true)
    (hr : ∀ c ∈ r, jsWhiteSpace c = true) : trimChars (l ++ x ++ r) = trimChars x := by
  unfold trimChars
  rw [List.append_assoc, dropWhile_append_of_all l (x ++ r) hl]
  by_cases hx : ∃ c ∈ x, jsWhiteSpace c = false
  · rw [dropWhile_append_of_exists x r hx, List.reverse_append,
      dropWhile_append_of_all r.reverse _ (fun c hc => hr c (List.mem_reverse.mp hc))]
  · have hall : ∀ c ∈ x, jsWhiteSpace c = true := by
      intro c hc
      by_contra hne
      exact hx ⟨c, hc, by simpa using hne⟩
    have h1 : (x ++ r).dropWhile jsWhiteSpace = [] := by
      rw [List.dropWhile_eq_nil_iff]
      intro c hc
      rcases List.mem_append.mp hc with h | h
      · exact hall c h
      · exact hr c h
    have h2 : x.dropWhile jsWhiteSpace = [] := by
      rw [List.dropWhile_eq_nil_iff]
      exact hall
    rw [h1, h2]

theorem jsTrim_pad (l x r : String) (hl : ∀ c ∈ l.data, jsWhiteSpace c = true)
    (hr : ∀ c ∈ r.data, jsWhiteSpace c = true) : jsTrim (l ++ x ++ r) = jsTrim x := by
  unfold jsTrim
  rw [String.data_append, String.data_append, trimChars_pad l.data x.data r.data hl hr]

/-- Lower-casing of A–Z leaves white space around a string in place. -/
theorem asciiLower_pad (l x r : String) (hl : ∀ c ∈ l.data, jsWhiteSpace c = true)
    (hr : ∀ c ∈ r.data, jsWhiteSpace c = true) :
    asciiLower (l ++ x ++ r) = l ++ asciiLower x ++ r := by
  have hmap : ∀ w : List Char, (∀ c ∈ w, jsWhiteSpace c = true) → w.map Char.toLower = w := by
    intro w hw
    induction w with
    | nil => rfl
    | cons a rest ih =>
      rw [List.map_cons, toLower_of_jsWhiteSpace a (hw a (List.mem_cons_self _ _)),
        ih (fun c hc => hw c (List.mem_cons_of_mem _ hc))]
  apply String.ext
  simp only [asciiLower, String.data_append, List.map_append, hmap l.data hl, hmap r.data hr]

/-- Upper-casing a letter a–z and lower-casing the result gives the letter
back; other characters are untouched by upper-casing. -/
theorem toLower_toUpper (c : Char) : c.toUpper.toLower = c.toLower := by
  by_cases h : c.toNat ≥ 97 ∧ c.toNat ≤ 122
  · have hc : c = Char.ofNat c.toNat := (Char.ofNat_toNat c).symm
    obtain ⟨h1, h2⟩ := h
    generalize c.toNat = n at hc h1 h2
    subst hc
    interval_cases n <;> decide
  · have h1 : c.toUpper = c := by simp only [Char.toUpper, h, if_false]
    rw [h1]

/-- The loop reads the candidate title only through its normalized form. -/
theorem scan_congr_normalize (rt : Runtime) (t t2 : String)
    (h : normalize rt t2 = normalize rt t) (position : LatLng) (snapshot : List Doc) :
    scan rt t2 position snapshot = scan rt t position snapshot := by
  have hm : ∀ data : ComplaintData, titleMatches rt t2 data = titleMatches rt t data := by
    intro data
    unfold titleMatches
    rw [h]
  have hs : scanStep rt t2 position = scanStep rt t position := by
    funext acc doc
    simp only [scanStep_eq, hm]
  simp only [scan, hs]

/-- The loop result does not depend on the order of the snapshot. -/
theorem scan_perm (rt : Runtime) (title : String) (position : LatLng)
    {s1 s2 : List Doc} (h : s1.Perm s2) :
    scan rt title position s1 = scan rt title position s2 := by
  have hany : s1.any (fun doc =>
        titleMatches rt title doc.data && withinMeters rt position 100 doc) =
      s2.any (fun doc =>
        titleMatches rt title doc.data && withinMeters rt position 100 doc) := by
    rw [Bool.eq_iff_iff, List.any_eq_true, List.any_eq_true]
    constructor
    · rintro ⟨d, hd, hp⟩
      exact ⟨d, h.mem_iff.mp hd, hp⟩
    · rintro ⟨d, hd, hp⟩
      exact ⟨d, h.mem_iff.mpr hd, hp⟩
  have hcount := List.Perm.countP_eq (withinMeters rt position 250) h
  simp only [scan, foldl_scanStep, hany, hcount]

theorem intake_of_duplicate (rt : Runtime) (title : String) (position : LatLng)
    (snapshot : List Doc)
    (h : ∃ doc ∈ snapshot, titleMatches rt title doc.data = true ∧
      withinMeters rt position 100 doc = true) :
    intake rt title position snapshot = IntakeDecision.rejected (duplicateMessage title) := by
  rw [intake_eq]
  have hany : snapshot.any (fun doc =>
      titleMatches rt title doc.data && withinMeters rt position 100 doc) = true := by
    rw [List.any_eq_true]
    obtain ⟨doc, hmem, ht, hw⟩ := h
    exact ⟨doc, hmem, by simp [ht, hw]⟩
  simp [hany]

/-- On the street the longitude of the pin plays no part. -/
theorem withinMeters_reportAt_lng (lng : JsNum) (id title : String) (meters r : Nat) :
    withinMeters streetRuntime ⟨JsNum.lit 0, lng⟩ r (reportAt id title meters) =
      decide (meters ≤ r) := by
  simp [withinMeters, reportAt, distTo, streetRuntime, streetDistance, JsNum.lit, JsNum.le]

theorem checkedGeoPoint_origin :
    checkedGeoPoint origin.lat origin.lng = Except.ok ⟨JsNum.lit 0, JsNum.lit 0⟩ := by
  simp [checkedGeoPoint, origin, JsNum.le, JsNum.lit]

/-- A run of `handleSubmit` in which every awaited call resolves and the
snapshot is empty ends with a persisted record of priority Low. -/
theorem handleSubmit_empty_snapshot (rt : Runtime)
    (geoPoint : JsNum → JsNum → Except String GeoPoint) (c : Component)
    (photo uid img id : String) (loc : GeoPoint)
    (hi : c.image = some photo) (hu : c.currentUser = some uid)
    (hGeo : geoPoint c.position.lat c.position.lng = Except.ok loc) :
    handleSubmit rt geoPoint c (Await.resolved []) (Await.resolved img) (Await.resolved id) =
      ({ c with
          loading := false
          error := ""
          success := "Report successfully submitted! Priority: Low" },
        ⟨true,
          some { citizenId := uid
                 title := some c.title
                 category := c.category
                 description := c.description
                 imageUrl := img
                 location := some loc
                 status := "Pending"
                 priority := "Low" },
          some "/citizen/dashboard"⟩) := by
  have hd : intake rt c.title c.position [] = IntakeDecision.accepted Priority.Low := rfl
  simp only [handleSubmit, hi, hu, hd, hGeo, Priority.label]
  rfl

/-- Both runs of a concurrent pair that start from a collection without
active complaints persist their record. -/
theorem submitBothConcurrently_of_no_active (rt : Runtime)
    (geoPoint : JsNum → JsNum → Except String GeoPoint) (store : List Doc)
    (cA cB : Component) (photoA uidA photoB uidB imgA imgB idA idB : String)
    (locA locB : GeoPoint) (hStore : activeQuery store = [])
    (hiA : cA.image = some photoA) (huA : cA.currentUser = some uidA)
    (hiB : cB.image = some photoB) (huB : cB.currentUser = some uidB)
    (hGeoA : geoPoint cA.position.lat cA.position.lng = Except.ok locA)
    (hGeoB : geoPoint cB.position.lat cB.position.lng = Except.ok locB) :
    ∃ recA recB : ComplaintData,
      (submitBothConcurrently rt geoPoint store cA cB imgA imgB idA idB).1.2.addDoc =
        some recA ∧
      (submitBothConcurrently rt geoPoint store cA cB imgA imgB idA idB).2.1.2.addDoc =
        some recB ∧
      (submitBothConcurrently rt geoPoint store cA cB imgA imgB idA idB).2.2 =
        store ++ [⟨idA, recA⟩] ++ [⟨idB, recB⟩] ∧
      recA.title = some cA.title ∧ recB.title = some cB.title ∧
      recA.location = some locA ∧ recB.location = some locB ∧
      recA.status = "Pending" ∧ recB.status = "Pending" ∧
      (submitBothConcurrently rt geoPoint store cA cB imgA imgB idA idB).1.1.success =
        "Report successfully submitted! Priority: Low" ∧
      (submitBothConcurrently rt geoPoint store cA cB imgA imgB idA idB).2.1.1.success =
        "Report successfully submitted! Priority: Low" ∧
      (submitBothConcurrently rt geoPoint store cA cB imgA imgB idA idB).1.1.error = "" ∧
      (submitBothConcurrently rt geoPoint store cA cB imgA imgB idA idB).2.1.1.error = "" := by
  have hA := handleSubmit_empty_snapshot rt geoPoint cA photoA uidA imgA idA locA hiA huA hGeoA
  have hB := handleSubmit_empty_snapshot rt geoPoint cB photoB uidB imgB idB locB hiB huB hGeoB
  refine ⟨{ citizenId := uidA, title := some cA.title, category := cA.category,
            description := cA.description, imageUrl := imgA, location := some locA,
            status := "Pending", priority := "Low" },
          { citizenId := uidB, title := some cB.title, category := cB.category,
            description := cB.description, imageUrl := imgB, location := some locB,
            status := "Pending", priority := "Low" }, ?_⟩
  simp only [submitBothConcurrently, hStore, hA, hB, storeAfter]
  simp

theorem specClassify_defaults (rt : Runtime) (title : String) (position : LatLng)
    (snapshot : List Doc) :
    intake rt title position snapshot = specClassify specDefaults rt title position snapshot := by
  rw [intake_eq]
  rfl

theorem duplicateMessage_ne_specReason (title : String) :
    duplicateMessage title ≠ specReason := by
  intro h
  have hd := congrArg String.data h
  simp [duplicateMessage, specReason, String.data_append] at hd

theorem mem_activeQuery (store : List Doc) (d : Doc) :
    d ∈ activeQuery store ↔
      d ∈ store ∧ (d.data.status = "Pending" ∨ d.data.status = "In Progress") := by
  simp [activeQuery, List.mem_filter]

/-- The query result is the same with the resolved complaints removed from
the collection beforehand. -/
theorem activeQuery_drop_resolved (store : List Doc) :
    activeQuery (store.filter (fun d => d.data.status != "Resolved")) = activeQuery store := by
  unfold activeQuery
  rw [List.filter_filter]
  apply List.filter_congr
  intro d _
  by_cases h1 : d.data.status = "Pending"
  · simp [h1]
  · by_cases h2 : d.data.status = "In Progress"
    · simp [h2]
    · simp [h1, h2]

theorem validCoordinate_lng_190 : validCoordinate (JsNum.lit 0) (JsNum.lit 190) = false := by
  simp [validCoordinate, JsNum.le, JsNum.lit]
  norm_num

theorem validCoordinate_lat_95 : validCoordinate (JsNum.lit 95) (JsNum.lit 0) = false := by
  simp [validCoordinate, JsNum.le, JsNum.lit]
  norm_num

/-! ### Runs of `handleSubmit` that reach the store -/

theorem intake_accepted_priority (rt : Runtime) (title : String) (position : LatLng)
    (snapshot : List Doc) (p : Priority)
    (h : intake rt title position snapshot = IntakeDecision.accepted p) :
    p = priorityOf (scan rt title position snapshot).nearbyCount ∧
      (scan rt title position snapshot).isDuplicate = false := by
  unfold intake at h
  simp only [] at h
  split at h
  · cases h
  · rename_i hd
    injection h with h
    exact ⟨h.symm, by simpa using hd⟩

theorem label_cases (p : Priority) : p.label = "Low" ∨ p.label = "Medium" ∨ p.label = "High" := by
  cases p
  · exact Or.inl rfl
  · exact Or.inr (Or.inl rfl)
  · exact Or.inr (Or.inr rfl)

/-- The run of `handleSubmit` in which the intake step accepts and every
awaited call resolves. -/
theorem handleSubmit_of_accepted_resolved (rt : Runtime)
    (geoPoint : JsNum → JsNum → Except String GeoPoint) (c : Component)
    (snapshot : List Doc) (photo uid img id : String) (loc : GeoPoint) (p : Priority)
    (hi : c.image = some photo) (hu : c.currentUser = some uid)
    (hGeo : geoPoint c.position.lat c.position.lng = Except.ok loc)
    (hd : intake rt c.title c.position snapshot = IntakeDecision.accepted p) :
    handleSubmit rt geoPoint c (Await.resolved snapshot) (Await.resolved img)
        (Await.resolved id) =
      ({ c with
          loading := false
          error := ""
          success := "Report successfully submitted! Priority: " ++ p.label },
        ⟨true,
          some { citizenId := uid
                 title := some c.title
                 category := c.category
                 description := c.description
                 imageUrl := img
                 location := some loc
                 status := "Pending"
                 priority := p.label },
          some "/citizen/dashboard"⟩) := by
  simp only [handleSubmit, hi, hu, hd, hGeo]

/-- Whatever the awaited calls do, a record handed to `addDoc` has status
Pending, the title as typed, one of the three priority labels and the user,
category and description of the form. -/
theorem handleSubmit_record (rt : Runtime)
    (geoPoint : JsNum → JsNum → Except String GeoPoint) (c : Component)
    (fetch : Await (List Doc)) (compressed added : Await String) (r : ComplaintData)
    (h : (handleSubmit rt geoPoint c fetch compressed added).2.addDoc = some r) :
    r.status = "Pending" ∧ r.title = some c.title ∧
      (r.priority = "Low" ∨ r.priority = "Medium" ∨ r.priority = "High") ∧
      r.category = c.category ∧ r.description = c.description ∧
      c.currentUser = some r.citizenId ∧
      ∃ loc, r.location = some loc ∧
        geoPoint c.position.lat c.position.lng = Except.ok loc := by
  unfold handleSubmit at h
  cases hi : c.image with
  | none => simp [hi] at h
  | some photo =>
    cases hu : c.currentUser with
    | none => simp [hi, hu] at h
    | some uid =>
      cases fetch with
      | pending => simp [hi, hu] at h
      | rejected m => simp [hi, hu] at h
      | resolved snapshot =>
        cases hd : intake rt c.title c.position snapshot with
        | rejected msg => simp [hi, hu, hd] at h
        | accepted p =>
          cases compressed with
          | pending => simp [hi, hu, hd] at h
          | rejected m => simp [hi, hu, hd] at h
          | resolved b =>
            cases hg : geoPoint c.position.lat c.position.lng with
            | error m => simp [hi, hu, hd, hg] at h
            | ok loc =>
              have hr : r =
                  { citizenId := uid, title := some c.title,
                    category := c.category, description := c.description, imageUrl := b,
                    location := some loc, status := "Pending", priority := p.label } := by
                cases added <;> simp [hi, hu, hd, hg] at h <;> exact h.symm
              subst hr
              exact ⟨rfl, rfl, label_cases p, rfl, rfl, rfl, loc, rfl, rfl⟩

theorem activeQuery_append_pending (store : List Doc) (id : String) (record : ComplaintData)
    (h : record.status = "Pending") :
    activeQuery (store ++ [⟨id, record⟩]) = activeQuery store ++ [⟨id, record⟩] := by
  simp [activeQuery, List.filter_append, h]

theorem reportAt_status (id title : String) (meters : Nat) :
    (reportAt id title meters).data.status = "Pending" := rfl

theorem streetDistance_origin :
    streetRuntime.calculateDistance origin.lat origin.lng origin.lat origin.lng =
      JsNum.num 0 := by
  simp [streetRuntime, streetDistance, origin, JsNum.lit]

/-- The loop result is the same with the entries without a location removed. -/
theorem scan_filter_located (rt : Runtime) (title : String) (position : LatLng)
    (snapshot : List Doc) :
    scan rt title position (snapshot.filter (fun d => d.data.location.isSome)) =
      scan rt title position snapshot := by
  have hw : ∀ (r : Nat) (d : Doc), withinMeters rt position r d = true →
      d.data.location.isSome = true := by
    intro r d h
    obtain ⟨loc, hl, _⟩ := (withinMeters_iff rt position r d).mp h
    simp [hl]
  have hany : (snapshot.filter (fun d => d.data.location.isSome)).any (fun doc =>
        titleMatches rt title doc.data && withinMeters rt position 100 doc) =
      snapshot.any (fun doc =>
        titleMatches rt title doc.data && withinMeters rt position 100 doc) := by
    rw [Bool.eq_iff_iff, List.any_eq_true, List.any_eq_true]
    constructor
    · rintro ⟨d, hd, hp⟩
      exact ⟨d, (List.mem_filter.mp hd).1, hp⟩
    · rintro ⟨d, hd, hp⟩
      have h100 : withinMeters rt position 100 d = true := by
        rw [Bool.and_eq_true] at hp
        exact hp.2
      exact ⟨d, List.mem_filter.mpr ⟨hd, hw 100 d h100⟩, hp⟩
  have hcount : (snapshot.filter (fun d => d.data.location.isSome)).countP
        (withinMeters rt position 250) =
      snapshot.countP (withinMeters rt position 250) := by
    rw [List.countP_filter]
    apply List.countP_congr
    intro d _
    constructor
    · intro h
      rw [Bool.and_eq_true] at h
      exact h.1
    · intro h
      rw [Bool.and_eq_true]
      exact ⟨h, hw 250 d h⟩
  simp only [scan, foldl_scanStep, hany, hcount]

/-! ### Counters of the dashboards -/

/-- Three pairwise exclusive tests and the test for "none of them" split a
list. -/
theorem countP_three_way {α : Type} (p q r other : α → Bool)
    (hpq : ∀ x, p x = true → q x = false) (hpr : ∀ x, p x = true → r x = false)
    (hqr : ∀ x, q x = true → r x = false)
    (ho : ∀ x, other x = !(p x || q x || r x)) (l : List α) :
    l.countP p + l.countP q + l.countP r + l.countP other = l.length := by
  induction l with
  | nil => rfl
  | cons x rest ih =>
    simp only [List.countP_cons, List.length_cons]
    have h1 := hpq x
    have h2 := hpr x
    have h3 := hqr x
    have h4 := ho x
    cases hp : p x <;> cases hq : q x <;> cases hr : r x <;>
      simp only [hp, hq, hr] at h1 h2 h3 h4 <;> simp_all <;> omega

/-- The three status counters never count a report twice, and they miss
exactly the reports with another status or none. -/
theorem status_counts (reports : List Report) :
    reports.countP (fun r => r.status == some "Resolved") +
        reports.countP (fun r => r.status == some "In Progress") +
        reports.countP (fun r => r.status == some "Pending") +
        reports.countP (fun r => !(r.status == some "Resolved" ||
          r.status == some "In Progress" || r.status == some "Pending")) =
      reports.length := by
  apply countP_three_way
  · intro r h
    rw [beq_iff_eq] at h
    rw [h]
    decide
  · intro r h
    rw [beq_iff_eq] at h
    rw [h]
    decide
  · intro r h
    rw [beq_iff_eq] at h
    rw [h]
    decide
  · intro r
    rfl

theorem high_le_unresolved (complaints : List Report) :
    complaints.countP (fun c => c.priority == some "High" && c.status != some "Resolved") +
        complaints.countP (fun c => c.status == some "Resolved") ≤ complaints.length := by
  induction complaints with
  | nil => simp
  | cons c rest ih =>
    simp only [List.countP_cons, List.length_cons]
    by_cases h1 : c.status = some "Resolved"
    · simp [h1]
      omega
    · simp [h1]
      split_ifs <;> omega

/-! ### Trimming and lower-casing in either order -/

/-- Every character sequence is its trimmed part with white space in front
and behind. -/
theorem trimChars_decompose (s : List Char) :
    ∃ l r : List Char, (∀ c ∈ l, jsWhiteSpace c = true) ∧
      (∀ c ∈ r, jsWhiteSpace c = true) ∧ s = l ++ trimChars s ++ r := by
  refine ⟨s.takeWhile jsWhiteSpace,
    (((s.dropWhile jsWhiteSpace).reverse).takeWhile jsWhiteSpace).reverse, ?_, ?_, ?_⟩
  · intro c hc
    exact List.mem_takeWhile_imp hc
  · intro c hc
    exact List.mem_takeWhile_imp (List.mem_reverse.mp hc)
  · have h1 : (s.dropWhile jsWhiteSpace) =
        trimChars s ++ (((s.dropWhile jsWhiteSpace).reverse).takeWhile jsWhiteSpace).reverse := by
      unfold trimChars
      rw [← List.reverse_append, List.takeWhile_append_dropWhile, List.reverse_reverse]
    rw [List.append_assoc, ← h1, List.takeWhile_append_dropWhile]

theorem trimChars_idem (s : List Char) : trimChars (trimChars s) = trimChars s := by
  obtain ⟨l, r, hl, hr, hs⟩ := trimChars_decompose s
  have h := trimChars_pad l (trimChars s) r hl hr
  rw [← hs] at h
  exact h.symm

theorem jsTrim_decompose (s : String) :
    ∃ l r : String, (∀ c ∈ l.data, jsWhiteSpace c = true) ∧
      (∀ c ∈ r.data, jsWhiteSpace c = true) ∧ s = l ++ jsTrim s ++ r := by
  obtain ⟨l, r, hl, hr, hs⟩ := trimChars_decompose s.data
  refine ⟨String.mk l, String.mk r, hl, hr, ?_⟩
  apply String.ext
  simp only [String.data_append, jsTrim]
  exact hs

theorem jsTrim_idem (s : String) : jsTrim (jsTrim s) = jsTrim s := by
  unfold jsTrim
  rw [trimChars_idem]

theorem toLower_idem (c : Char) : c.toLower.toLower = c.toLower := by
  by_cases h : c.toNat ≥ 65 ∧ c.toNat ≤ 90
  · have hc : c = Char.ofNat c.toNat := (Char.ofNat_toNat c).symm
    obtain ⟨h1, h2⟩ := h
    generalize c.toNat = n at hc h1 h2
    subst hc
    interval_cases n <;> decide
  · have h1 : c.toLower = c := by simp only [Char.toLower, h, if_false]
    rw [h1, h1]

theorem jsWhiteSpace_toLower (c : Char) : jsWhiteSpace c.toLower = jsWhiteSpace c := by
  by_cases h : c.toNat ≥ 65 ∧ c.toNat ≤ 90
  · have hc : c = Char.ofNat c.toNat := (Char.ofNat_toNat c).symm
    obtain ⟨h1, h2⟩ := h
    generalize c.toNat = n at hc h1 h2
    subst hc
    interval_cases n <;> decide
  · have h1 : c.toLower = c := by simp only [Char.toLower, h, if_false]
    rw [h1]

theorem trimChars_map_toLower (l : List Char) :
    trimChars (l.map Char.toLower) = (trimChars l).map Char.toLower := by
  have hp : (jsWhiteSpace ∘ Char.toLower) = jsWhiteSpace := by
    funext c
    exact jsWhiteSpace_toLower c
  unfold trimChars
  rw [List.dropWhile_map, hp, ← List.map_reverse, List.dropWhile_map, hp, ← List.map_reverse]

theorem asciiLower_jsTrim (s : String) : jsTrim (asciiLower s) = asciiLower (jsTrim s) := by
  unfold jsTrim asciiLower
  rw [trimChars_map_toLower]

theorem asciiLower_idem (s : String) : asciiLower (asciiLower s) = asciiLower s := by
  unfold asciiLower
  simp only [List.map_map]
  congr 1
  apply List.map_congr_left
  intro c _
  exact toLower_idem c

theorem asciiLower_keeps_trimmed (x : String) (h : jsTrim x = x) :
    jsTrim (asciiLower x) = asciiLower x := by
  rw [asciiLower_jsTrim, h]

theorem checkedGeoPoint_lng_190 :
    checkedGeoPoint (JsNum.lit 0) (JsNum.lit 190) =
      Except.error "Longitude must be a number between -180 and 180" := by
  simp [checkedGeoPoint, JsNum.le, JsNum.lit]
  norm_num

/-- After an accepted intake step, a failing image compression ends the run
without a record. -/
theorem handleSubmit_of_compress_rejected (rt : Runtime)
    (geoPoint : JsNum → JsNum → Except String GeoPoint) (c : Component)
    (snapshot : List Doc) (added : Await String) (photo uid m : String) (p : Priority)
    (hi : c.image = some photo) (hu : c.currentUser = some uid)
    (hd : intake rt c.title c.position snapshot = IntakeDecision.accepted p) :
    handleSubmit rt geoPoint c (Await.resolved snapshot) (Await.rejected m) added =
      ({ c with loading := false, error := "Error: " ++ m }, ⟨true, none, none⟩) := by
  simp only [handleSubmit, hi, hu, hd, caught]

/-- After an accepted intake step, a throwing `GeoPoint` constructor ends the
run without a record. -/
theorem handleSubmit_of_geoPoint_error (rt : Runtime)
    (geoPoint : JsNum → JsNum → Except String GeoPoint) (c : Component)
    (snapshot : List Doc) (added : Await String) (photo uid img m : String) (p : Priority)
    (hi : c.image = some photo) (hu : c.currentUser = some uid)
    (hd : intake rt c.title c.position snapshot = IntakeDecision.accepted p)
    (hg : geoPoint c.position.lat c.position.lng = Except.error m) :
    handleSubmit rt geoPoint c (Await.resolved snapshot) (Await.resolved img) added =
      ({ c with loading := false, error := "Error: " ++ m }, ⟨true, none, none⟩) := by
  simp only [handleSubmit, hi, hu, hd, hg, caught]

/-! ## The intake decision -/

/-- C1. The intake step rejects the submission (with the duplicate message)
exactly when some snapshot entry has a location at most 100 meters from the
candidate position and a title whose lower-cased, trimmed form equals that of
the candidate title; in every other case the submission is accepted. -/
theorem intake_rejected_iff_duplicate (rt : Runtime) (title : String)
    (position : LatLng) (snapshot : List Doc) :
    (intake rt title position snapshot = IntakeDecision.rejected (duplicateMessage title) ↔
      ∃ doc ∈ snapshot, ∃ t loc,
        doc.data.title = some t ∧ doc.data.location = some loc ∧
        rt.trim (rt.toLowerCase t) = rt.trim (rt.toLowerCase title) ∧
        (rt.calculateDistance position.lat position.lng loc.latitude loc.longitude).le
          (JsNum.num 100) = true) ∧
    ((∃ p, intake rt title position snapshot = IntakeDecision.accepted p) ↔
      ¬ ∃ doc ∈ snapshot, ∃ t loc,
        doc.data.title = some t ∧ doc.data.location = some loc ∧
        rt.trim (rt.toLowerCase t) = rt.trim (rt.toLowerCase title) ∧
        (rt.calculateDistance position.lat position.lng loc.latitude loc.longitude).le
          (JsNum.num 100) = true) := by
  have key : (snapshot.any (fun doc =>
        titleMatches rt title doc.data && withinMeters rt position 100 doc) = true) ↔
      ∃ doc ∈ snapshot, ∃ t loc,
        doc.data.title = some t ∧ doc.data.location = some loc ∧
        rt.trim (rt.toLowerCase t) = rt.trim (rt.toLowerCase title) ∧
        (rt.calculateDistance position.lat position.lng loc.latitude loc.longitude).le
          (JsNum.num 100) = true := by
    rw [List.any_eq_true]
    constructor
    · rintro ⟨doc, hmem, h⟩
      rw [Bool.and_eq_true, titleMatches_iff, withinMeters_iff] at h
      obtain ⟨⟨t, ht, hn⟩, loc, hl, hd⟩ := h
      exact ⟨doc, hmem, t, loc, ht, hl, hn, by simpa [distTo, JsNum.lit] using hd⟩
    · rintro ⟨doc, hmem, t, loc, ht, hl, hn, hd⟩
      refine ⟨doc, hmem, ?_⟩
      rw [Bool.and_eq_true, titleMatches_iff, withinMeters_iff]
      exact ⟨⟨t, ht, hn⟩, loc, hl, by simpa [distTo, JsNum.lit] using hd⟩
  rw [intake_eq, ← key]
  by_cases h : snapshot.any (fun doc =>
      titleMatches rt title doc.data && withinMeters rt position 100 doc) = true
  · simp [h]
  · simp [h]

/-- C2. When the submission is accepted, the priority is High for a nearby
count of at least 6, Medium for a count from 3 to 5 and Low for a count below
3; the counts 6 and 3 themselves give High and Medium. -/
theorem accepted_priority_brackets (rt : Runtime) (title : String)
    (position : LatLng) (snapshot : List Doc) (p : Priority)
    (h : intake rt title position snapshot = IntakeDecision.accepted p) :
    ((scan rt title position snapshot).nearbyCount ≥ 6 → p = Priority.High) ∧
    (3 ≤ (scan rt title position snapshot).nearbyCount ∧
      (scan rt title position snapshot).nearbyCount < 6 → p = Priority.Medium) ∧
    ((scan rt title position snapshot).nearbyCount < 3 → p = Priority.Low) ∧
    priorityOf 6 = Priority.High ∧ priorityOf 3 = Priority.Medium := by
  unfold intake at h
  simp only [] at h
  split at h
  · cases h
  · injection h with h
    subst h
    unfold priorityOf
    refine ⟨?_, ?_, ?_, by decide, by decide⟩
    · intro h6; simp [h6]
    · rintro ⟨h3, h6⟩
      simp [h3, Nat.not_le.mpr h6]
    · intro h3
      have : ¬ (scan rt title position snapshot).nearbyCount ≥ 6 := by omega
      have : ¬ (scan rt title position snapshot).nearbyCount ≥ 3 := by omega
      simp [*]

/-- Witness for C2: three differently titled reports 150 m away give an
accepted submission with nearby count 3, whose priority is Medium. -/
theorem accepted_priority_brackets_witness :
    intake streetRuntime "Pothole on Main St" origin threeNearby =
        IntakeDecision.accepted Priority.Medium ∧
      (scan streetRuntime "Pothole on Main St" origin threeNearby).nearbyCount = 3 ∧
      priorityOf 6 = Priority.High ∧ priorityOf 3 = Priority.Medium :=
  have h : intake streetRuntime "Pothole on Main St" origin threeNearby =
      IntakeDecision.accepted Priority.Medium := by
    simp [intake_eq, threeNearby, withinMeters_reportAt, titleMatches_reportAt,
      List.countP_cons]
    decide
  ⟨h, by simp [scan_nearbyCount, threeNearby, withinMeters_reportAt, List.countP_cons],
    (accepted_priority_brackets streetRuntime _ _ _ _ h).2.2.2⟩

/-- C3. The nearby count computed by the loop is the number of snapshot
entries that have a location at most 250 meters from the candidate position.
The entry's title plays no part: entries whose title matches the candidate's
and entries whose title does not are counted alike, and the count is the same
for every candidate title. -/
theorem nearbyCount_eq_count_within_250 (rt : Runtime) (title : String)
    (position : LatLng) (snapshot : List Doc) :
    (scan rt title position snapshot).nearbyCount =
        snapshot.countP (fun doc =>
          match doc.data.location with
          | none => false
          | some loc =>
            (rt.calculateDistance position.lat position.lng
              loc.latitude loc.longitude).le (JsNum.num 250)) ∧
    (scan rt title position snapshot).nearbyCount =
        snapshot.countP (fun doc =>
            titleMatches rt title doc.data && withinMeters rt position 250 doc) +
          snapshot.countP (fun doc =>
            !titleMatches rt title doc.data && withinMeters rt position 250 doc) ∧
    ∀ title2 : String,
      (scan rt title2 position snapshot).nearbyCount =
        (scan rt title position snapshot).nearbyCount := by
  refine ⟨?_, ?_, ?_⟩
  · rw [scan_nearbyCount]
    rfl
  · rw [scan_nearbyCount]
    exact countP_split _ (fun doc => titleMatches rt title doc.data) snapshot
  · intro title2
    rw [scan_nearbyCount, scan_nearbyCount]

/-- C4. Against an empty snapshot every candidate is accepted with priority
Low: the loop finds no duplicate and leaves the nearby count at 0. -/
theorem intake_empty_snapshot (rt : Runtime) (title : String) (position : LatLng) :
    intake rt title position [] = IntakeDecision.accepted Priority.Low ∧
      (scan rt title position []).isDuplicate = false ∧
      (scan rt title position []).nearbyCount = 0 := by
  refine ⟨rfl, rfl, rfl⟩

/-- C5 (amended). Against a snapshot of exactly one entry whose normalized
title equals the candidate's and which lies at most 100 m away, the decision
is a rejection, carrying the error message that quotes the candidate title.
The rejection names no conflicting complaint: it is the same for every
identifier the entry may have. -/
theorem single_duplicate_rejected (rt : Runtime) (title : String) (position : LatLng)
    (e : Doc) (hTitle : titleMatches rt title e.data = true)
    (hNear : withinMeters rt position 100 e = true) :
    intake rt title position [e] = IntakeDecision.rejected (duplicateMessage title) ∧
      ∀ id2 : String,
        intake rt title position [{ e with id := id2 }] = intake rt title position [e] := by
  have hrej : ∀ d : Doc, d.data = e.data →
      intake rt title position [d] = IntakeDecision.rejected (duplicateMessage title) := by
    intro d hd
    have hN : withinMeters rt position 100 d = true := by
      unfold withinMeters at hNear ⊢
      rw [hd]
      exact hNear
    rw [intake_eq]
    simp [hd, hTitle, hN]
  refine ⟨hrej e rfl, ?_⟩
  intro id2
  rw [hrej e rfl, hrej { e with id := id2 } rfl]

/-- Witness for C5 (amended): Scenario A, the same title 80 m away. -/
theorem single_duplicate_rejected_witness :
    titleMatches streetRuntime "Pothole on Main St"
        (reportAt "c1" " pothole on main st" 80).data = true ∧
      withinMeters streetRuntime origin 100 (reportAt "c1" " pothole on main st" 80) = true ∧
      intake streetRuntime "Pothole on Main St" origin
          [reportAt "c1" " pothole on main st" 80] =
        IntakeDecision.rejected (duplicateMessage "Pothole on Main St") :=
  have hT : titleMatches streetRuntime "Pothole on Main St"
      (reportAt "c1" " pothole on main st" 80).data = true := by
    rw [titleMatches_reportAt]
    decide
  have hN : withinMeters streetRuntime origin 100
      (reportAt "c1" " pothole on main st" 80) = true := by
    rw [withinMeters_reportAt]
    decide
  ⟨hT, hN, (single_duplicate_rejected streetRuntime _ origin _ hT hN).1⟩

/-- Counterexample to C5 as stated: two snapshots that differ only in the
identifier of their single duplicate entry ("c1" or "c2") lead to the same
rejection and to the same final state and effects of `handleSubmit`, so
nothing read off the decision can return the identifier of the conflicting
entry in both cases. -/
theorem rejection_carries_no_conflict_id :
    intake streetRuntime "Pothole on Main St" origin
        [reportAt "c1" "Pothole on Main St" 80] =
      IntakeDecision.rejected (duplicateMessage "Pothole on Main St") ∧
    intake streetRuntime "Pothole on Main St" origin
        [reportAt "c2" "Pothole on Main St" 80] =
      IntakeDecision.rejected (duplicateMessage "Pothole on Main St") ∧
    handleSubmit streetRuntime checkedGeoPoint potholeForm
        (Await.resolved [reportAt "c1" "Pothole on Main St" 80])
        (Await.resolved "data:image/jpeg;base64,AAAA") (Await.resolved "new-id") =
      handleSubmit streetRuntime checkedGeoPoint potholeForm
        (Await.resolved [reportAt "c2" "Pothole on Main St" 80])
        (Await.resolved "data:image/jpeg;base64,AAAA") (Await.resolved "new-id") ∧
    ¬ ∃ conflictId : IntakeDecision → String,
        conflictId (intake streetRuntime "Pothole on Main St" origin
          [reportAt "c1" "Pothole on Main St" 80]) = "c1" ∧
        conflictId (intake streetRuntime "Pothole on Main St" origin
          [reportAt "c2" "Pothole on Main St" 80]) = "c2" := by
  have h1 : intake streetRuntime "Pothole on Main St" origin
      [reportAt "c1" "Pothole on Main St" 80] =
      IntakeDecision.rejected (duplicateMessage "Pothole on Main St") := by
    simp [intake_eq, withinMeters_reportAt, titleMatches_reportAt]
  have h2 : intake streetRuntime "Pothole on Main St" origin
      [reportAt "c2" "Pothole on Main St" 80] =
      IntakeDecision.rejected (duplicateMessage "Pothole on Main St") := by
    simp [intake_eq, withinMeters_reportAt, titleMatches_reportAt]
  refine ⟨h1, h2, ?_, ?_⟩
  · have ht : potholeForm.title = "Pothole on Main St" := rfl
    have hp : potholeForm.position = origin := rfl
    simp only [handleSubmit, ht, hp, h1, h2]
  · rintro ⟨f, hf1, hf2⟩
    rw [h1] at hf1
    rw [h2] at hf2
    have hne : ("c1" : String) ≠ "c2" := by decide
    exact hne (hf1.symm.trans hf2)

/-- C6. When every entry whose normalized title equals the candidate's lies
more than 100 m away, the submission is not rejected: no duplicate is found
and it is accepted with the priority that follows from the nearby count,
High for a count of at least 6, Medium for 3 to 5 and Low below 3.  That
count is the number of all entries within 250 m, the same-title ones
included, and a snapshot of a single entry gives priority Low. -/
theorem far_same_title_accepted (rt : Runtime) (title : String) (position : LatLng)
    (snapshot : List Doc)
    (hFar : ∀ doc ∈ snapshot, titleMatches rt title doc.data = true →
      withinMeters rt position 100 doc = false) :
    (scan rt title position snapshot).isDuplicate = false ∧
    (scan rt title position snapshot).nearbyCount =
      snapshot.countP (withinMeters rt position 250) ∧
    (scan rt title position snapshot).nearbyCount =
      snapshot.countP (fun doc =>
          titleMatches rt title doc.data && withinMeters rt position 250 doc) +
        snapshot.countP (fun doc =>
          !titleMatches rt title doc.data && withinMeters rt position 250 doc) ∧
    (6 ≤ snapshot.countP (withinMeters rt position 250) →
      intake rt title position snapshot = IntakeDecision.accepted Priority.High) ∧
    (3 ≤ snapshot.countP (withinMeters rt position 250) ∧
        snapshot.countP (withinMeters rt position 250) < 6 →
      intake rt title position snapshot = IntakeDecision.accepted Priority.Medium) ∧
    (snapshot.countP (withinMeters rt position 250) < 3 →
      intake rt title position snapshot = IntakeDecision.accepted Priority.Low) ∧
    intake rt title position snapshot =
      IntakeDecision.accepted (priorityOf (scan rt title position snapshot).nearbyCount) ∧
    (∀ e : Doc, snapshot = [e] →
      intake rt title position snapshot = IntakeDecision.accepted Priority.Low) := by
  have hno : ∀ doc ∈ snapshot,
      (titleMatches rt title doc.data && withinMeters rt position 100 doc) = false := by
    intro doc hmem
    cases ht : titleMatches rt title doc.data with
    | false => simp
    | true => simp [hFar doc hmem ht]
  have hacc := intake_of_no_duplicate rt title position snapshot hno
  have hdup : (scan rt title position snapshot).isDuplicate = false := by
    rw [scan_isDuplicate, List.any_eq_false]
    intro doc hmem
    simp [hno doc hmem]
  refine ⟨hdup, scan_nearbyCount rt title position snapshot, ?_, ?_, ?_, ?_, ?_, ?_⟩
  · rw [scan_nearbyCount]
    exact countP_split _ (fun doc => titleMatches rt title doc.data) snapshot
  · intro h6
    rw [hacc]
    simp only [priorityOf, ge_iff_le, h6, if_true]
  · rintro ⟨h3, h6⟩
    rw [hacc]
    have hn6 : ¬ 6 ≤ snapshot.countP (withinMeters rt position 250) := by omega
    simp only [priorityOf, ge_iff_le, hn6, h3, if_true, if_false]
  · intro h3
    rw [hacc]
    have hn6 : ¬ 6 ≤ snapshot.countP (withinMeters rt position 250) := by omega
    have hn3 : ¬ 3 ≤ snapshot.countP (withinMeters rt position 250) := by omega
    simp only [priorityOf, ge_iff_le, hn6, hn3, if_false]
  · rw [scan_nearbyCount]
    exact hacc
  · intro e he
    rw [hacc, he]
    have hle : [e].countP (withinMeters rt position 250) ≤ 1 := by
      simpa using List.countP_le_length (withinMeters rt position 250) (l := [e])
    have h6 : ¬ [e].countP (withinMeters rt position 250) ≥ 6 := by omega
    have h3 : ¬ [e].countP (withinMeters rt position 250) ≥ 3 := by omega
    simp only [priorityOf, h6, h3, if_false]

/-- Witness for C6: Scenario B, one entry with the same title 150 m away, is
counted (nearby count 1) and the submission is accepted with Low; six
entries with the same title 150 m away are all counted and give High. -/
theorem far_same_title_accepted_witness :
    (∀ doc ∈ [reportAt "c1" "Pothole on Main St" 150],
      titleMatches streetRuntime "pothole on main st " doc.data = true →
        withinMeters streetRuntime origin 100 doc = false) ∧
    titleMatches streetRuntime "pothole on main st "
      (reportAt "c1" "Pothole on Main St" 150).data = true ∧
    (scan streetRuntime "pothole on main st " origin
      [reportAt "c1" "Pothole on Main St" 150]).nearbyCount = 1 ∧
    intake streetRuntime "pothole on main st " origin
      [reportAt "c1" "Pothole on Main St" 150] = IntakeDecision.accepted Priority.Low ∧
    (∀ doc ∈ sixSameTitleFar,
      titleMatches streetRuntime "Pothole on Main St" doc.data = true) ∧
    sixSameTitleFar.countP (withinMeters streetRuntime origin 250) = 6 ∧
    intake streetRuntime "Pothole on Main St" origin sixSameTitleFar =
      IntakeDecision.accepted Priority.High :=
  have hFar : ∀ doc ∈ [reportAt "c1" "Pothole on Main St" 150],
      titleMatches streetRuntime "pothole on main st " doc.data = true →
        withinMeters streetRuntime origin 100 doc = false := by
    intro doc hmem _
    rw [List.mem_singleton] at hmem
    rw [hmem, withinMeters_reportAt]
    decide
  have hFar6 : ∀ doc ∈ sixSameTitleFar,
      titleMatches streetRuntime "Pothole on Main St" doc.data = true →
        withinMeters streetRuntime origin 100 doc = false := by
    intro doc hmem _
    simp only [sixSameTitleFar, List.mem_cons, List.mem_singleton, List.not_mem_nil,
      or_false] at hmem
    rcases hmem with h | h | h | h | h | h <;> (rw [h, withinMeters_reportAt]; decide)
  have hSame6 : ∀ doc ∈ sixSameTitleFar,
      titleMatches streetRuntime "Pothole on Main St" doc.data = true := by
    intro doc hmem
    simp only [sixSameTitleFar, List.mem_cons, List.mem_singleton, List.not_mem_nil,
      or_false] at hmem
    rcases hmem with h | h | h | h | h | h <;> (rw [h, titleMatches_reportAt]; decide)
  have hCount6 : sixSameTitleFar.countP (withinMeters streetRuntime origin 250) = 6 := by
    simp [sixSameTitleFar, withinMeters_reportAt, List.countP_cons]
  ⟨hFar, by rw [titleMatches_reportAt]; decide,
    by simp [scan_nearbyCount, withinMeters_reportAt],
    (far_same_title_accepted streetRuntime _ origin _ hFar).2.2.2.2.2.2.2 _ rfl,
    hSame6, hCount6,
    (far_same_title_accepted streetRuntime _ origin _ hFar6).2.2.2.1 (le_of_eq hCount6.symm)⟩

/-- C7. When at least 6 snapshot entries lie within 250 m of the candidate
and none of the entries within 250 m has a normalized title equal to the
candidate's, the submission is accepted with priority High. -/
theorem dense_area_accepted_high (rt : Runtime) (title : String) (position : LatLng)
    (snapshot : List Doc)
    (hCount : 6 ≤ snapshot.countP (withinMeters rt position 250))
    (hNone : ∀ doc ∈ snapshot, withinMeters rt position 250 doc = true →
      titleMatches rt title doc.data = false) :
    intake rt title position snapshot = IntakeDecision.accepted Priority.High := by
  have hno : ∀ doc ∈ snapshot,
      (titleMatches rt title doc.data && withinMeters rt position 100 doc) = false := by
    intro doc hmem
    cases hw : withinMeters rt position 100 doc with
    | false => simp
    | true =>
      have h250 := withinMeters_mono rt position doc (by decide : 100 ≤ 250) hw
      simp [hNone doc hmem h250]
  rw [intake_of_no_duplicate rt title position snapshot hno]
  simp [priorityOf, hCount]

/-- Witness for C7: Scenario C, seven entries with other titles within 250 m. -/
theorem dense_area_accepted_high_witness :
    6 ≤ sevenNearby.countP (withinMeters streetRuntime origin 250) ∧
    (∀ doc ∈ sevenNearby, withinMeters streetRuntime origin 250 doc = true →
      titleMatches streetRuntime "Pothole on Main St" doc.data = false) ∧
    intake streetRuntime "Pothole on Main St" origin sevenNearby =
      IntakeDecision.accepted Priority.High :=
  have hCount : 6 ≤ sevenNearby.countP (withinMeters streetRuntime origin 250) := by
    simp [sevenNearby, withinMeters_reportAt, List.countP_cons]
  have hNone : ∀ doc ∈ sevenNearby, withinMeters streetRuntime origin 250 doc = true →
      titleMatches streetRuntime "Pothole on Main St" doc.data = false := by
    intro doc hmem _
    simp only [sevenNearby, List.mem_cons, List.mem_singleton, List.not_mem_nil,
      or_false] at hmem
    rcases hmem with h | h | h | h | h | h | h <;>
      (rw [h, titleMatches_reportAt]; decide)
  ⟨hCount, hNone, dense_area_accepted_high streetRuntime _ origin _ hCount hNone⟩

/-- C8. Without a duplicate entry, exactly 3 entries within 250 m give an
accepted submission with priority Medium, and exactly 2 give Low. -/
theorem boundary_three_medium_two_low (rt : Runtime) (title : String)
    (position : LatLng) (snapshot : List Doc)
    (hNoDup : ∀ doc ∈ snapshot,
      ¬ (titleMatches rt title doc.data = true ∧ withinMeters rt position 100 doc = true)) :
    (snapshot.countP (withinMeters rt position 250) = 3 →
      intake rt title position snapshot = IntakeDecision.accepted Priority.Medium) ∧
    (snapshot.countP (withinMeters rt position 250) = 2 →
      intake rt title position snapshot = IntakeDecision.accepted Priority.Low) := by
  have hno : ∀ doc ∈ snapshot,
      (titleMatches rt title doc.data && withinMeters rt position 100 doc) = false := by
    intro doc hmem
    have := hNoDup doc hmem
    cases ht : titleMatches rt title doc.data <;>
      cases hw : withinMeters rt position 100 doc <;> simp_all
  rw [intake_of_no_duplicate rt title position snapshot hno]
  constructor
  · intro h
    rw [h]
    rfl
  · intro h
    rw [h]
    rfl

/-- Witness for C8: Scenario D, three entries 150 m away give Medium, two
give Low. -/
theorem boundary_three_medium_two_low_witness :
    threeNearby.countP (withinMeters streetRuntime origin 250) = 3 ∧
    intake streetRuntime "Pothole on Main St" origin threeNearby =
      IntakeDecision.accepted Priority.Medium ∧
    twoNearby.countP (withinMeters streetRuntime origin 250) = 2 ∧
    intake streetRuntime "Pothole on Main St" origin twoNearby =
      IntakeDecision.accepted Priority.Low :=
  have h3 : threeNearby.countP (withinMeters streetRuntime origin 250) = 3 := by
    simp [threeNearby, withinMeters_reportAt, List.countP_cons]
  have h2 : twoNearby.countP (withinMeters streetRuntime origin 250) = 2 := by
    simp [twoNearby, withinMeters_reportAt, List.countP_cons]
  have hNo3 : ∀ doc ∈ threeNearby,
      ¬ (titleMatches streetRuntime "Pothole on Main St" doc.data = true ∧
        withinMeters streetRuntime origin 100 doc = true) := by
    intro doc hmem
    simp only [threeNearby, List.mem_cons, List.mem_singleton, List.not_mem_nil,
      or_false] at hmem
    rcases hmem with h | h | h <;> (rw [h, withinMeters_reportAt]; decide)
  have hNo2 : ∀ doc ∈ twoNearby,
      ¬ (titleMatches streetRuntime "Pothole on Main St" doc.data = true ∧
        withinMeters streetRuntime origin 100 doc = true) := by
    intro doc hmem
    simp only [twoNearby, List.mem_cons, List.mem_singleton, List.not_mem_nil,
      or_false] at hmem
    rcases hmem with h | h <;> (rw [h, withinMeters_reportAt]; decide)
  ⟨h3, (boundary_three_medium_two_low streetRuntime _ origin _ hNo3).1 h3,
    h2, (boundary_three_medium_two_low streetRuntime _ origin _ hNo2).2 h2⟩

/-- C9. The priority is monotonically non-decreasing in the nearby count,
for the order Low < Medium < High (ranks 0, 1, 2). -/
theorem priority_monotone_in_nearbyCount (m n : Nat) (h : m ≤ n) :
    priorityOf m ≤ priorityOf n ∧ (priorityOf m).rank ≤ (priorityOf n).rank ∧
      Priority.Low.rank < Priority.Medium.rank ∧
      Priority.Medium.rank < Priority.High.rank :=
  ⟨priorityOf_mono h, priorityOf_mono h, by decide, by decide⟩

/-- Witness for C9: counts 2 and 3 give Low and Medium, counts 5 and 6 give
Medium and High. -/
theorem priority_monotone_in_nearbyCount_witness :
    (2 ≤ 3 ∧ priorityOf 2 = Priority.Low ∧ priorityOf 3 = Priority.Medium ∧
      priorityOf 2 ≤ priorityOf 3) ∧
    (5 ≤ 6 ∧ priorityOf 5 = Priority.Medium ∧ priorityOf 6 = Priority.High ∧
      priorityOf 5 ≤ priorityOf 6) :=
  ⟨⟨by decide, by decide, by decide,
      (priority_monotone_in_nearbyCount 2 3 (by decide)).1⟩,
    ⟨by decide, by decide, by decide,
      (priority_monotone_in_nearbyCount 5 6 (by decide)).1⟩⟩

/-- C10. The intake decision is a function of the candidate title, the
candidate position and the snapshot alone.  Two component states that agree
on title and position reach the same decision on the same snapshot, whatever
their category, description, photo and user; and in two runs of
`handleSubmit` that pass the photo and login guards and fetch the same
snapshot, one ends with the duplicate error exactly when the other does, and
records handed to `addDoc` carry the same priority. -/
theorem decision_depends_only_on_title_position_snapshot (rt : Runtime)
    (geoPoint : JsNum → JsNum → Except String GeoPoint) (c1 c2 : Component)
    (snapshot : List Doc) (compressed1 compressed2 added1 added2 : Await String)
    (img1 uid1 img2 uid2 : String)
    (hTitle : c1.title = c2.title) (hPos : c1.position = c2.position)
    (hi1 : c1.image = some img1) (hu1 : c1.currentUser = some uid1)
    (hi2 : c2.image = some img2) (hu2 : c2.currentUser = some uid2) :
    intake rt c1.title c1.position snapshot = intake rt c2.title c2.position snapshot ∧
    ((handleSubmit rt geoPoint c1 (Await.resolved snapshot) compressed1 added1).1.error =
        duplicateMessage c1.title ↔
      (handleSubmit rt geoPoint c2 (Await.resolved snapshot) compressed2 added2).1.error =
        duplicateMessage c2.title) ∧
    (∀ r1 r2,
      (handleSubmit rt geoPoint c1 (Await.resolved snapshot) compressed1 added1).2.addDoc =
          some r1 →
      (handleSubmit rt geoPoint c2 (Await.resolved snapshot) compressed2 added2).2.addDoc =
          some r2 →
      r1.priority = r2.priority) := by
  have hEq : intake rt c1.title c1.position snapshot =
      intake rt c2.title c2.position snapshot := by rw [hTitle, hPos]
  refine ⟨hEq, ?_, ?_⟩
  · cases hd1 : intake rt c1.title c1.position snapshot with
    | rejected msg =>
      have hd2 : intake rt c2.title c2.position snapshot = IntakeDecision.rejected msg := by
        rw [← hEq, hd1]
      have hm1 := intake_rejected_message rt _ _ _ _ hd1
      have hm2 := intake_rejected_message rt _ _ _ _ hd2
      rw [handleSubmit_of_rejected rt geoPoint c1 snapshot compressed1 added1 img1 uid1 msg
          hi1 hu1 hd1,
        handleSubmit_of_rejected rt geoPoint c2 snapshot compressed2 added2 img2 uid2 msg
          hi2 hu2 hd2]
      simp only [← hm1, ← hm2]
    | accepted p =>
      have hd2 : intake rt c2.title c2.position snapshot = IntakeDecision.accepted p := by
        rw [← hEq, hd1]
      have h1 := (handleSubmit_of_accepted rt geoPoint c1 snapshot compressed1 added1
        img1 uid1 p hi1 hu1 hd1).1
      have h2 := (handleSubmit_of_accepted rt geoPoint c2 snapshot compressed2 added2
        img2 uid2 p hi2 hu2 hd2).1
      constructor
      · intro h
        rcases h1 with h1 | ⟨m, h1⟩
        · exact absurd (h.symm.trans h1) (duplicateMessage_ne_empty _)
        · exact absurd (h.symm.trans h1) (duplicateMessage_ne_error _ _)
      · intro h
        rcases h2 with h2 | ⟨m, h2⟩
        · exact absurd (h.symm.trans h2) (duplicateMessage_ne_empty _)
        · exact absurd (h.symm.trans h2) (duplicateMessage_ne_error _ _)
  · intro r1 r2 hr1 hr2
    cases hd1 : intake rt c1.title c1.position snapshot with
    | rejected msg =>
      rw [handleSubmit_of_rejected rt geoPoint c1 snapshot compressed1 added1 img1 uid1 msg
          hi1 hu1 hd1] at hr1
      cases hr1
    | accepted p =>
      have hd2 : intake rt c2.title c2.position snapshot = IntakeDecision.accepted p := by
        rw [← hEq, hd1]
      rw [(handleSubmit_of_accepted rt geoPoint c1 snapshot compressed1 added1
          img1 uid1 p hi1 hu1 hd1).2 r1 hr1,
        (handleSubmit_of_accepted rt geoPoint c2 snapshot compressed2 added2
          img2 uid2 p hi2 hu2 hd2).2 r2 hr2]

/-- Witness for C10: two forms with the same title and pin but different
category, description, photo and user reach the same decision. -/
theorem decision_depends_only_on_title_position_snapshot_witness :
    potholeForm.title = potholeFormOther.title ∧
    potholeForm.position = potholeFormOther.position ∧
    potholeForm.category ≠ potholeFormOther.category ∧
    potholeForm.description ≠ potholeFormOther.description ∧
    potholeForm.image ≠ potholeFormOther.image ∧
    potholeForm.currentUser ≠ potholeFormOther.currentUser ∧
    intake streetRuntime potholeForm.title potholeForm.position threeNearby =
      intake streetRuntime potholeFormOther.title potholeFormOther.position threeNearby :=
  ⟨rfl, rfl, by decide, by decide, by decide, by decide,
    (decision_depends_only_on_title_position_snapshot streetRuntime checkedGeoPoint
      potholeForm potholeFormOther threeNearby
      (Await.resolved "data:image/jpeg;base64,AAAA")
      (Await.resolved "data:image/jpeg;base64,BBBB")
      (Await.resolved "id-1") (Await.resolved "id-2")
      "photo-1.jpg" "uid-1" "photo-2.jpg" "uid-2" rfl rfl rfl rfl rfl rfl).1⟩

/-! ## Title matching, effects of a rejection, order of the snapshot -/

/-- C11. Title matching is equality of normalized titles and nothing else.
(1) A stored title matches the candidate title exactly when lower-casing and
trimming makes the two equal.  (2), (3) For a runtime whose `trim` is the
ECMAScript one and whose `toLowerCase` leaves surrounding white space in
place, replacing the candidate title or a stored title by one that differs
only in letter case (equal after lower-casing) and in added leading or
trailing white space changes neither `isDuplicate` nor `nearbyCount`, hence
neither the accept/reject outcome nor the priority.  (4) Titles whose
normalized forms differ never match. -/
theorem title_match_is_normalized_equality (rt : Runtime)
    (hTrim : ∀ s : String, rt.trim s = jsTrim s)
    (hPad : ∀ l s r : String, (∀ c ∈ l.data, jsWhiteSpace c = true) →
      (∀ c ∈ r.data, jsWhiteSpace c = true) →
      rt.toLowerCase (l ++ s ++ r) = l ++ rt.toLowerCase s ++ r) :
    (∀ (t s : String) (data : ComplaintData), data.title = some s →
      (titleMatches rt t data = true ↔
        rt.trim (rt.toLowerCase s) = rt.trim (rt.toLowerCase t))) ∧
    (∀ (t t2 l r : String), rt.toLowerCase t2 = rt.toLowerCase t →
      (∀ c ∈ l.data, jsWhiteSpace c = true) → (∀ c ∈ r.data, jsWhiteSpace c = true) →
      ∀ (position : LatLng) (snapshot : List Doc),
        scan rt (l ++ t2 ++ r) position snapshot = scan rt t position snapshot ∧
        ((∃ m, intake rt (l ++ t2 ++ r) position snapshot = IntakeDecision.rejected m) ↔
          ∃ m, intake rt t position snapshot = IntakeDecision.rejected m) ∧
        ∀ p, intake rt (l ++ t2 ++ r) position snapshot = IntakeDecision.accepted p ↔
          intake rt t position snapshot = IntakeDecision.accepted p) ∧
    (∀ (t s s2 l r : String) (data : ComplaintData), data.title = some s →
      rt.toLowerCase s2 = rt.toLowerCase s →
      (∀ c ∈ l.data, jsWhiteSpace c = true) → (∀ c ∈ r.data, jsWhiteSpace c = true) →
      titleMatches rt t { data with title := some (l ++ s2 ++ r) } =
        titleMatches rt t data) ∧
    (∀ (t s : String) (data : ComplaintData), data.title = some s →
      rt.trim (rt.toLowerCase s) ≠ rt.trim (rt.toLowerCase t) →
      titleMatches rt t data = false) := by
  have hnorm : ∀ a a2 l r : String, rt.toLowerCase a2 = rt.toLowerCase a →
      (∀ c ∈ l.data, jsWhiteSpace c = true) → (∀ c ∈ r.data, jsWhiteSpace c = true) →
      normalize rt (l ++ a2 ++ r) = normalize rt a := by
    intro a a2 l r ha hl hr
    unfold normalize
    rw [hPad l a2 r hl hr, hTrim, hTrim, jsTrim_pad l _ r hl hr, ha]
  refine ⟨?_, ?_, ?_, ?_⟩
  · intro t s data hs
    simp [titleMatches, hs, normalize]
  · intro t t2 l r ht hl hr position snapshot
    have hscan := scan_congr_normalize rt t (l ++ t2 ++ r) (hnorm t t2 l r ht hl hr)
      position snapshot
    refine ⟨hscan, ?_, ?_⟩
    · unfold intake
      simp only [hscan]
      cases (scan rt t position snapshot).isDuplicate <;> simp
    · intro p
      unfold intake
      simp only [hscan]
      cases (scan rt t position snapshot).isDuplicate <;> simp
  · intro t s s2 l r data hs hs2 hl hr
    have h := hnorm s s2 l r hs2 hl hr
    simp only [titleMatches, hs, h]
  · intro t s data hs hne
    simp [titleMatches, hs, normalize, hne]

/-- Witness for C11: the upper-cased title with white space around it leads
to the same loop result as the title itself, while an inner extra space or a
different word prevents a match. -/
theorem title_match_is_normalized_equality_witness :
    asciiLower "POTHOLE ON MAIN ST" = asciiLower "Pothole on Main St" ∧
    scan asciiRuntime (" \t" ++ "POTHOLE ON MAIN ST" ++ "\n") origin
        [reportAt "c1" "pothole on main st" 80] =
      scan asciiRuntime "Pothole on Main St" origin
        [reportAt "c1" "pothole on main st" 80] ∧
    titleMatches asciiRuntime "Pothole on Main St"
      (reportAt "c1" "Pot hole on Main St" 80).data = false ∧
    titleMatches asciiRuntime "Pothole on Main St"
      (reportAt "c1" "Pothole on Main Rd" 80).data = false :=
  have h := title_match_is_normalized_equality asciiRuntime (fun _ => rfl) asciiLower_pad
  ⟨by decide,
    (h.2.1 "Pothole on Main St" "POTHOLE ON MAIN ST" " \t" "\n" (by decide) (by decide)
      (by decide) origin [reportAt "c1" "pothole on main st" 80]).1,
    h.2.2.2 "Pothole on Main St" "Pot hole on Main St" _ rfl (by decide),
    h.2.2.2 "Pothole on Main St" "Pothole on Main Rd" _ rfl (by decide)⟩

/-- C12. When the fetched snapshot holds a duplicate, `handleSubmit` stops:
`addDoc` is not called, no navigation is scheduled, the success message is
left as it was, the error message is set to the (non-empty) duplicate message
and the loading flag is cleared.  Nothing else is written: the remaining
component state is unchanged and the only effect is the fetch, so no snapshot
entry is modified. -/
theorem duplicate_stops_submission (rt : Runtime)
    (geoPoint : JsNum → JsNum → Except String GeoPoint) (c : Component)
    (snapshot : List Doc) (compressed added : Await String) (img uid : String)
    (hi : c.image = some img) (hu : c.currentUser = some uid)
    (hDup : ∃ doc ∈ snapshot, titleMatches rt c.title doc.data = true ∧
      withinMeters rt c.position 100 doc = true) :
    (handleSubmit rt geoPoint c (Await.resolved snapshot) compressed added).2.addDoc = none ∧
    (handleSubmit rt geoPoint c (Await.resolved snapshot) compressed added).2.navigate = none ∧
    (handleSubmit rt geoPoint c (Await.resolved snapshot) compressed added).1.success =
      c.success ∧
    (handleSubmit rt geoPoint c (Await.resolved snapshot) compressed added).1.error =
      duplicateMessage c.title ∧
    (handleSubmit rt geoPoint c (Await.resolved snapshot) compressed added).1.error ≠ "" ∧
    handleSubmit rt geoPoint c (Await.resolved snapshot) compressed added =
      ({ c with error := duplicateMessage c.title, loading := false },
        ⟨true, none, none⟩) := by
  have hd := intake_of_duplicate rt c.title c.position snapshot hDup
  have hr := handleSubmit_of_rejected rt geoPoint c snapshot compressed added img uid _
    hi hu hd
  rw [hr]
  exact ⟨rfl, rfl, rfl, rfl, duplicateMessage_ne_empty _, rfl⟩

/-- Witness for C12: the pothole form against a snapshot holding the same
title 80 m away. -/
theorem duplicate_stops_submission_witness :
    (∃ doc ∈ [reportAt "c1" "pothole on main st" 80],
      titleMatches streetRuntime potholeForm.title doc.data = true ∧
        withinMeters streetRuntime potholeForm.position 100 doc = true) ∧
    (handleSubmit streetRuntime checkedGeoPoint potholeForm
      (Await.resolved [reportAt "c1" "pothole on main st" 80])
      (Await.resolved "data:image/jpeg;base64,AAAA") (Await.resolved "new-id")).2.addDoc =
        none ∧
    (handleSubmit streetRuntime checkedGeoPoint potholeForm
      (Await.resolved [reportAt "c1" "pothole on main st" 80])
      (Await.resolved "data:image/jpeg;base64,AAAA") (Await.resolved "new-id")).1.error =
        duplicateMessage "Pothole on Main St" :=
  have hDup : ∃ doc ∈ [reportAt "c1" "pothole on main st" 80],
      titleMatches streetRuntime potholeForm.title doc.data = true ∧
        withinMeters streetRuntime potholeForm.position 100 doc = true :=
    ⟨_, List.mem_singleton.mpr rfl,
      by rw [titleMatches_reportAt]; decide,
      by
        show withinMeters streetRuntime origin 100 _ = true
        rw [withinMeters_reportAt]
        decide⟩
  have h := duplicate_stops_submission streetRuntime checkedGeoPoint potholeForm
    [reportAt "c1" "pothole on main st" 80] (Await.resolved "data:image/jpeg;base64,AAAA")
    (Await.resolved "new-id") "photo-1.jpg" "uid-1" rfl rfl hDup
  ⟨hDup, h.1, h.2.2.2.1⟩

/-- C13 (amended). The decision does not depend on the order of the snapshot:
for every permutation of the entries the loop ends with the same
`isDuplicate` and `nearbyCount`, and the decision (outcome, priority and
error message) is the same.  The rejection reports no conflicting entry. -/
theorem intake_perm_invariant (rt : Runtime) (title : String) (position : LatLng)
    (s1 s2 : List Doc) (h : s1.Perm s2) :
    scan rt title position s1 = scan rt title position s2 ∧
      intake rt title position s1 = intake rt title position s2 := by
  have hs := scan_perm rt title position h
  exact ⟨hs, by simp only [intake, hs]⟩

/-- Witness for C13 (amended): two duplicates in either order. -/
theorem intake_perm_invariant_witness :
    [reportAt "c1" "Pothole on Main St" 80, reportAt "c2" "Pothole on Main St" 90].Perm
      [reportAt "c2" "Pothole on Main St" 90, reportAt "c1" "Pothole on Main St" 80] ∧
    intake streetRuntime "Pothole on Main St" origin
        [reportAt "c1" "Pothole on Main St" 80, reportAt "c2" "Pothole on Main St" 90] =
      intake streetRuntime "Pothole on Main St" origin
        [reportAt "c2" "Pothole on Main St" 90, reportAt "c1" "Pothole on Main St" 80] :=
  ⟨List.Perm.swap _ _ _,
    (intake_perm_invariant streetRuntime "Pothole on Main St" origin _ _
      (List.Perm.swap _ _ _)).2⟩

/-- Counterexample to C13 as stated: with two qualifying entries "c1" and "c2"
the decision, the final component state and the effects of `handleSubmit`
are the same whether "c1" or "c2" comes first, so the rejection does not
report the first qualifying entry of the supplied sequence. -/
theorem rejection_reports_no_first_conflict :
    intake streetRuntime "Pothole on Main St" origin
        [reportAt "c1" "Pothole on Main St" 80, reportAt "c2" "Pothole on Main St" 90] =
      IntakeDecision.rejected (duplicateMessage "Pothole on Main St") ∧
    intake streetRuntime "Pothole on Main St" origin
        [reportAt "c2" "Pothole on Main St" 90, reportAt "c1" "Pothole on Main St" 80] =
      IntakeDecision.rejected (duplicateMessage "Pothole on Main St") ∧
    handleSubmit streetRuntime checkedGeoPoint potholeForm
        (Await.resolved
          [reportAt "c1" "Pothole on Main St" 80, reportAt "c2" "Pothole on Main St" 90])
        (Await.resolved "data:image/jpeg;base64,AAAA") (Await.resolved "new-id") =
      handleSubmit streetRuntime checkedGeoPoint potholeForm
        (Await.resolved
          [reportAt "c2" "Pothole on Main St" 90, reportAt "c1" "Pothole on Main St" 80])
        (Await.resolved "data:image/jpeg;base64,AAAA") (Await.resolved "new-id") ∧
    ¬ ∃ firstConflict : IntakeDecision → String,
        firstConflict (intake streetRuntime "Pothole on Main St" origin
          [reportAt "c1" "Pothole on Main St" 80,
            reportAt "c2" "Pothole on Main St" 90]) = "c1" ∧
        firstConflict (intake streetRuntime "Pothole on Main St" origin
          [reportAt "c2" "Pothole on Main St" 90,
            reportAt "c1" "Pothole on Main St" 80]) = "c2" := by
  have h1 : intake streetRuntime "Pothole on Main St" origin
      [reportAt "c1" "Pothole on Main St" 80, reportAt "c2" "Pothole on Main St" 90] =
      IntakeDecision.rejected (duplicateMessage "Pothole on Main St") := by
    simp [intake_eq, withinMeters_reportAt, titleMatches_reportAt]
  have h2 : intake streetRuntime "Pothole on Main St" origin
      [reportAt "c2" "Pothole on Main St" 90, reportAt "c1" "Pothole on Main St" 80] =
      IntakeDecision.rejected (duplicateMessage "Pothole on Main St") := by
    simp [intake_eq, withinMeters_reportAt, titleMatches_reportAt]
  refine ⟨h1, h2, ?_, ?_⟩
  · have ht : potholeForm.title = "Pothole on Main St" := rfl
    have hp : potholeForm.position = origin := rfl
    simp only [handleSubmit, ht, hp, h1, h2]
  · rintro ⟨f, hf1, hf2⟩
    rw [h1] at hf1
    rw [h2] at hf2
    have hne : ("c1" : String) ≠ "c2" := by decide
    exact hne (hf1.symm.trans hf2)

/-! ## Concurrency, configuration, validation, reason, active statuses -/

/-- C14 (amended). `handleSubmit` does not serialize fetch, classification
and persistence.  When two submissions with the same title and coordinate
are in flight together and both fetch before either persists, starting from
a collection without active complaints, both are accepted: each run calls
`addDoc`, sets the success message and no error, and the collection ends
with both records, which carry the same title and location. -/
theorem concurrent_submissions_both_persist (rt : Runtime)
    (geoPoint : JsNum → JsNum → Except String GeoPoint) (store : List Doc)
    (cA cB : Component) (photoA uidA photoB uidB imgA imgB idA idB : String)
    (loc : GeoPoint) (hStore : activeQuery store = [])
    (hTitle : cA.title = cB.title) (hPos : cA.position = cB.position)
    (hiA : cA.image = some photoA) (huA : cA.currentUser = some uidA)
    (hiB : cB.image = some photoB) (huB : cB.currentUser = some uidB)
    (hGeo : geoPoint cA.position.lat cA.position.lng = Except.ok loc) :
    ∃ recA recB : ComplaintData,
      (submitBothConcurrently rt geoPoint store cA cB imgA imgB idA idB).1.2.addDoc =
        some recA ∧
      (submitBothConcurrently rt geoPoint store cA cB imgA imgB idA idB).2.1.2.addDoc =
        some recB ∧
      (submitBothConcurrently rt geoPoint store cA cB imgA imgB idA idB).2.2 =
        store ++ [⟨idA, recA⟩] ++ [⟨idB, recB⟩] ∧
      recA.title = some cA.title ∧ recB.title = some cA.title ∧
      recA.location = some loc ∧ recB.location = some loc ∧
      recA.status = "Pending" ∧ recB.status = "Pending" ∧
      (submitBothConcurrently rt geoPoint store cA cB imgA imgB idA idB).1.1.success =
        "Report successfully submitted! Priority: Low" ∧
      (submitBothConcurrently rt geoPoint store cA cB imgA imgB idA idB).2.1.1.success =
        "Report successfully submitted! Priority: Low" ∧
      (submitBothConcurrently rt geoPoint store cA cB imgA imgB idA idB).1.1.error = "" ∧
      (submitBothConcurrently rt geoPoint store cA cB imgA imgB idA idB).2.1.1.error = "" := by
  have hGeoB : geoPoint cB.position.lat cB.position.lng = Except.ok loc := by
    rw [← hPos]
    exact hGeo
  obtain ⟨recA, recB, h⟩ := submitBothConcurrently_of_no_active rt geoPoint store cA cB
    photoA uidA photoB uidB imgA imgB idA idB loc loc hStore hiA huA hiB huB hGeo hGeoB
  obtain ⟨h1, h2, h3, h4, h5, h6⟩ := h
  exact ⟨recA, recB, h1, h2, h3, h4, hTitle ▸ h5, h6⟩

/-- Witness for C14 (amended): the same form submitted twice at once against
an empty collection leaves two records. -/
theorem concurrent_submissions_both_persist_witness :
    activeQuery [] = [] ∧
    ∃ recA recB : ComplaintData,
      (submitBothConcurrently streetRuntime checkedGeoPoint [] potholeForm potholeForm
        "data:image/jpeg;base64,AAAA" "data:image/jpeg;base64,AAAA" "id-1" "id-2").2.2 =
        [⟨"id-1", recA⟩, ⟨"id-2", recB⟩] := by
  obtain ⟨recA, recB, h⟩ := concurrent_submissions_both_persist streetRuntime
    checkedGeoPoint [] potholeForm potholeForm "photo-1.jpg" "uid-1" "photo-1.jpg" "uid-1"
    "data:image/jpeg;base64,AAAA" "data:image/jpeg;base64,AAAA" "id-1" "id-2"
    ⟨JsNum.lit 0, JsNum.lit 0⟩ rfl rfl rfl rfl rfl rfl rfl checkedGeoPoint_origin
  exact ⟨rfl, recA, recB, h.2.2.1⟩

/-- Counterexample to C14 as stated: two citizens submit the same title at the
same pin at once against an empty collection.  Both runs call `addDoc` and
end without an error, and the collection then holds two records with that
title and location: it is not the case that exactly one is accepted. -/
theorem concurrent_duplicates_both_accepted :
    ((submitBothConcurrently streetRuntime checkedGeoPoint [] potholeForm potholeFormOther
        "data:image/jpeg;base64,AAAA" "data:image/jpeg;base64,BBBB"
        "id-1" "id-2").1.2.addDoc.isSome = true ∧
      (submitBothConcurrently streetRuntime checkedGeoPoint [] potholeForm potholeFormOther
        "data:image/jpeg;base64,AAAA" "data:image/jpeg;base64,BBBB"
        "id-1" "id-2").2.1.2.addDoc.isSome = true) ∧
    (submitBothConcurrently streetRuntime checkedGeoPoint [] potholeForm potholeFormOther
        "data:image/jpeg;base64,AAAA" "data:image/jpeg;base64,BBBB"
        "id-1" "id-2").1.1.error = "" ∧
    (submitBothConcurrently streetRuntime checkedGeoPoint [] potholeForm potholeFormOther
        "data:image/jpeg;base64,AAAA" "data:image/jpeg;base64,BBBB"
        "id-1" "id-2").2.1.1.error = "" ∧
    (submitBothConcurrently streetRuntime checkedGeoPoint [] potholeForm potholeFormOther
        "data:image/jpeg;base64,AAAA" "data:image/jpeg;base64,BBBB"
        "id-1" "id-2").2.2.map (fun d => (d.id, d.data.title, d.data.location)) =
      [("id-1", some "Pothole on Main St", some ⟨JsNum.lit 0, JsNum.lit 0⟩),
        ("id-2", some "Pothole on Main St", some ⟨JsNum.lit 0, JsNum.lit 0⟩)] := by
  obtain ⟨recA, recB, hA, hB, hS, htA, htB, hlA, hlB, _, _, _, _, heA, heB⟩ :=
    submitBothConcurrently_of_no_active streetRuntime checkedGeoPoint [] potholeForm
      potholeFormOther "photo-1.jpg" "uid-1" "photo-2.jpg" "uid-2"
      "data:image/jpeg;base64,AAAA" "data:image/jpeg;base64,BBBB" "id-1" "id-2"
      ⟨JsNum.lit 0, JsNum.lit 0⟩ ⟨JsNum.lit 0, JsNum.lit 0⟩ rfl rfl rfl rfl rfl
      checkedGeoPoint_origin checkedGeoPoint_origin
  refine ⟨⟨by rw [hA]; rfl, by rw [hB]; rfl⟩, heA, heB, ?_⟩
  rw [hS]
  simp only [List.nil_append, List.cons_append, List.map_cons, List.map_nil, htA, htB, hlA, hlB]
  rfl

/-- C15 (amended). The duplicate radius, the density radius and the two
priority breakpoints are the literals 100, 250, 6 and 3 inside
`handleSubmit`, which takes no configuration: its decision is always the one
of the specified classifier evaluated with these default values. -/
theorem thresholds_are_fixed_defaults (rt : Runtime) (title : String) (position : LatLng)
    (snapshot : List Doc) :
    intake rt title position snapshot =
        specClassify specDefaults rt title position snapshot ∧
      specDefaults = ⟨100, 250, 6, 3⟩ :=
  ⟨specClassify_defaults rt title position snapshot, rfl⟩

/-- Counterexample to C15 as stated: with a duplicate radius of 50 m the
configured classifier accepts a same-title report 80 m away, and with
breakpoints 2 and 1 it assigns High to two nearby reports; the decision of
`handleSubmit` stays the rejection and Low of the literals. -/
theorem decision_ignores_other_thresholds :
    specClassify { specDefaults with duplicateRadiusMeters := 50 } streetRuntime
        "Pothole on Main St" origin [reportAt "c1" "Pothole on Main St" 80] =
      IntakeDecision.accepted Priority.Low ∧
    intake streetRuntime "Pothole on Main St" origin
        [reportAt "c1" "Pothole on Main St" 80] =
      IntakeDecision.rejected (duplicateMessage "Pothole on Main St") ∧
    specClassify { specDefaults with highPriorityThreshold := 2, mediumPriorityThreshold := 1 }
        streetRuntime "Pothole on Main St" origin twoNearby =
      IntakeDecision.accepted Priority.High ∧
    intake streetRuntime "Pothole on Main St" origin twoNearby =
      IntakeDecision.accepted Priority.Low := by
  refine ⟨?_, ?_, ?_, ?_⟩
  · simp [specClassify, specDefaults, withinMeters_reportAt, titleMatches_reportAt]
  · simp [intake_eq, withinMeters_reportAt, titleMatches_reportAt]
  · simp [specClassify, specDefaults, twoNearby, withinMeters_reportAt, titleMatches_reportAt,
      List.countP_cons]
  · simp [intake_eq, twoNearby, withinMeters_reportAt, titleMatches_reportAt,
      List.countP_cons]
    decide

/-- C16 (amended). Classification performs no range check.  Also when the
candidate coordinate or the coordinate of a snapshot entry is out of range,
the coordinates are passed to `calculateDistance` as they are and a decision
is produced by the usual rules: with a duplicate entry `handleSubmit` ends
with the duplicate message (no invalid-input error), and without one the
submission is accepted with the priority of the nearby count. -/
theorem out_of_range_coordinates_are_classified (rt : Runtime)
    (geoPoint : JsNum → JsNum → Except String GeoPoint) (c : Component)
    (snapshot : List Doc) (compressed added : Await String) (img uid : String)
    (hi : c.image = some img) (hu : c.currentUser = some uid)
    (hInvalid : validCoordinate c.position.lat c.position.lng = false ∨
      ∃ doc ∈ snapshot, ∃ loc, doc.data.location = some loc ∧
        validCoordinate loc.latitude loc.longitude = false) :
    ((∃ doc ∈ snapshot, titleMatches rt c.title doc.data = true ∧
        withinMeters rt c.position 100 doc = true) →
      intake rt c.title c.position snapshot =
          IntakeDecision.rejected (duplicateMessage c.title) ∧
        handleSubmit rt geoPoint c (Await.resolved snapshot) compressed added =
          ({ c with error := duplicateMessage c.title, loading := false },
            ⟨true, none, none⟩)) ∧
    ((¬ ∃ doc ∈ snapshot, titleMatches rt c.title doc.data = true ∧
        withinMeters rt c.position 100 doc = true) →
      intake rt c.title c.position snapshot =
        IntakeDecision.accepted
          (priorityOf (snapshot.countP (withinMeters rt c.position 250)))) := by
  have _ := hInvalid
  refine ⟨?_, ?_⟩
  · intro hDup
    have hd := intake_of_duplicate rt c.title c.position snapshot hDup
    exact ⟨hd, handleSubmit_of_rejected rt geoPoint c snapshot compressed added img uid _
      hi hu hd⟩
  · intro hNo
    apply intake_of_no_duplicate
    intro doc hmem
    cases ht : titleMatches rt c.title doc.data <;>
      cases hw : withinMeters rt c.position 100 doc <;> simp
    exact hNo ⟨doc, hmem, ht, hw⟩

/-- Witness for C16 (amended): a pin at longitude 190 and a report with the
same title 80 m along the street. -/
theorem out_of_range_coordinates_are_classified_witness :
    validCoordinate outOfRangeForm.position.lat outOfRangeForm.position.lng = false ∧
    intake streetRuntime outOfRangeForm.title outOfRangeForm.position
        [reportAt "c1" "pothole on main st" 80] =
      IntakeDecision.rejected (duplicateMessage outOfRangeForm.title) :=
  have hInv : validCoordinate outOfRangeForm.position.lat outOfRangeForm.position.lng =
      false := validCoordinate_lng_190
  have hDup : ∃ doc ∈ [reportAt "c1" "pothole on main st" 80],
      titleMatches streetRuntime outOfRangeForm.title doc.data = true ∧
        withinMeters streetRuntime outOfRangeForm.position 100 doc = true :=
    ⟨_, List.mem_singleton.mpr rfl,
      by rw [titleMatches_reportAt]; decide,
      by
        show withinMeters streetRuntime ⟨JsNum.lit 0, JsNum.lit 190⟩ 100 _ = true
        rw [withinMeters_reportAt_lng]
        decide⟩
  ⟨hInv,
    ((out_of_range_coordinates_are_classified streetRuntime checkedGeoPoint outOfRangeForm
      [reportAt "c1" "pothole on main st" 80] (Await.resolved "data:image/jpeg;base64,AAAA")
      (Await.resolved "new-id") "photo-1.jpg" "uid-1" rfl rfl (Or.inl hInv)).1 hDup).1⟩

/-- Counterexample to C16 as stated: a candidate pinned at longitude 190 is
rejected as a duplicate of a report 80 m along the street, and a candidate at
the origin is rejected as a duplicate of an entry stored with latitude 95;
in both cases an out-of-range coordinate yields an ordinary decision, and
`handleSubmit` ends with the duplicate message, not with an input error. -/
theorem out_of_range_coordinate_yields_decision :
    validCoordinate outOfRangeForm.position.lat outOfRangeForm.position.lng = false ∧
    handleSubmit streetRuntime checkedGeoPoint outOfRangeForm
        (Await.resolved [reportAt "c1" "pothole on main st" 80])
        (Await.resolved "data:image/jpeg;base64,AAAA") (Await.resolved "new-id") =
      ({ outOfRangeForm with
          error := duplicateMessage "Pothole on Main St", loading := false },
        ⟨true, none, none⟩) ∧
    validCoordinate (JsNum.lit 95) (JsNum.lit 0) = false ∧
    (reportAt "c2" "Pothole on Main St" 95).data.location =
      some ⟨JsNum.lit 95, JsNum.lit 0⟩ ∧
    intake streetRuntime "Pothole on Main St" origin
        [reportAt "c2" "Pothole on Main St" 95] =
      IntakeDecision.rejected (duplicateMessage "Pothole on Main St") := by
  refine ⟨validCoordinate_lng_190, ?_, validCoordinate_lat_95, rfl, ?_⟩
  · have hd : intake streetRuntime outOfRangeForm.title outOfRangeForm.position
        [reportAt "c1" "pothole on main st" 80] =
        IntakeDecision.rejected (duplicateMessage "Pothole on Main St") := by
      apply intake_of_duplicate
      refine ⟨_, List.mem_singleton.mpr rfl, ?_, ?_⟩
      · rw [titleMatches_reportAt]; decide
      · show withinMeters streetRuntime ⟨JsNum.lit 0, JsNum.lit 190⟩ 100 _ = true
        rw [withinMeters_reportAt_lng]
        decide
    exact handleSubmit_of_rejected streetRuntime checkedGeoPoint outOfRangeForm _ _ _
      "photo-1.jpg" "uid-1" _ rfl rfl hd
  · simp [intake_eq, withinMeters_reportAt, titleMatches_reportAt]

/-- C19 (amended). Every rejection produced by duplicate detection carries
the error message `An issue with the title "<title>" has already been reported
at this exact location.`, built from the candidate title as typed; this is
never the reason text of the specification. -/
theorem rejection_message_quotes_title (rt : Runtime) (title : String) (position : LatLng)
    (snapshot : List Doc) (msg : String)
    (h : intake rt title position snapshot = IntakeDecision.rejected msg) :
    msg = "An issue with the title \"" ++ title ++
        "\" has already been reported at this exact location." ∧
      msg ≠ "duplicate of an active report with the same title within 100 meters" := by
  have hm := intake_rejected_message rt title position snapshot msg h
  subst hm
  exact ⟨rfl, duplicateMessage_ne_specReason title⟩

/-- Witness for C19 (amended): Scenario A. -/
theorem rejection_message_quotes_title_witness :
    intake streetRuntime "Pothole on Main St" origin
        [reportAt "c1" " pothole on main st" 80] =
      IntakeDecision.rejected (duplicateMessage "Pothole on Main St") ∧
    duplicateMessage "Pothole on Main St" =
      "An issue with the title \"Pothole on Main St\" has already been reported at this exact location." :=
  have h : intake streetRuntime "Pothole on Main St" origin
      [reportAt "c1" " pothole on main st" 80] =
      IntakeDecision.rejected (duplicateMessage "Pothole on Main St") := by
    simp [intake_eq, withinMeters_reportAt, titleMatches_reportAt]
    decide
  ⟨h, ((rejection_message_quotes_title streetRuntime _ origin _ _ h).1).trans (by decide)⟩

/-- Counterexample to C19 as stated: the rejection of Scenario A does not
carry the reason "duplicate of an active report with the same title within
100 meters"; `handleSubmit` ends with another error text. -/
theorem rejection_reason_differs :
    intake streetRuntime "Pothole on Main St" origin
        [reportAt "c1" "Pothole on Main St" 80] ≠
      IntakeDecision.rejected specReason ∧
    (handleSubmit streetRuntime checkedGeoPoint potholeForm
        (Await.resolved [reportAt "c1" "Pothole on Main St" 80])
        (Await.resolved "data:image/jpeg;base64,AAAA") (Await.resolved "new-id")).1.error =
      "An issue with the title \"Pothole on Main St\" has already been reported at this exact location." ∧
    (handleSubmit streetRuntime checkedGeoPoint potholeForm
        (Await.resolved [reportAt "c1" "Pothole on Main St" 80])
        (Await.resolved "data:image/jpeg;base64,AAAA") (Await.resolved "new-id")).1.error ≠
      specReason := by
  have h1 : intake streetRuntime "Pothole on Main St" origin
      [reportAt "c1" "Pothole on Main St" 80] =
      IntakeDecision.rejected (duplicateMessage "Pothole on Main St") := by
    simp [intake_eq, withinMeters_reportAt, titleMatches_reportAt]
  have hr := handleSubmit_of_rejected streetRuntime checkedGeoPoint potholeForm
    [reportAt "c1" "Pothole on Main St" 80] (Await.resolved "data:image/jpeg;base64,AAAA")
    (Await.resolved "new-id") "photo-1.jpg" "uid-1" _ rfl rfl h1
  refine ⟨?_, ?_, ?_⟩
  · rw [h1]
    intro h
    injection h with h
    exact duplicateMessage_ne_specReason _ h
  · rw [hr]
    decide
  · rw [hr]
    exact duplicateMessage_ne_specReason _

/-- C20. The snapshot that `handleSubmit` classifies against is the result of
the query on status: it holds exactly the stored complaints whose status is
'Pending' or 'In Progress' (the status the specification calls In-Progress)
and none whose status is 'Resolved'.  Resolved complaints therefore play no
part: the loop result, the decision and the whole run of `handleSubmit` are
the same as for the collection with every resolved complaint removed. -/
theorem only_active_complaints_classified (rt : Runtime)
    (geoPoint : JsNum → JsNum → Except String GeoPoint) (c : Component)
    (store : List Doc) (compressed added : Await String) :
    (∀ d : Doc, d ∈ activeQuery store ↔
      d ∈ store ∧ (d.data.status = "Pending" ∨ d.data.status = "In Progress")) ∧
    (∀ d ∈ activeQuery store, d.data.status ≠ "Resolved") ∧
    scan rt c.title c.position (activeQuery store) =
      scan rt c.title c.position
        (activeQuery (store.filter (fun d => d.data.status != "Resolved"))) ∧
    intake rt c.title c.position (activeQuery store) =
      intake rt c.title c.position
        (activeQuery (store.filter (fun d => d.data.status != "Resolved"))) ∧
    handleSubmit rt geoPoint c (Await.resolved (activeQuery store)) compressed added =
      handleSubmit rt geoPoint c
        (Await.resolved (activeQuery (store.filter (fun d => d.data.status != "Resolved"))))
        compressed added ∧
    (∀ d : Doc, d.data.status = "Resolved" →
      ∀ before after : List Doc,
        activeQuery (before ++ d :: after) = activeQuery (before ++ after)) := by
  refine ⟨mem_activeQuery store, ?_, ?_, ?_, ?_, ?_⟩
  · intro d hd
    rcases ((mem_activeQuery store d).mp hd).2 with h | h <;> rw [h] <;> decide
  · rw [activeQuery_drop_resolved]
  · rw [activeQuery_drop_resolved]
  · rw [activeQuery_drop_resolved]
  · intro d hd before after
    have hf : (d.data.status == "Pending" || d.data.status == "In Progress") = false := by
      rw [hd]
      decide
    simp [activeQuery, List.filter_append, List.filter_cons, hf]

/-! ## The persisted record and sequential submissions -/

/-- C21 (amended). A submission that the intake step accepts persists
exactly one complaint record when image compression, the `GeoPoint`
constructor and `addDoc` succeed: `addDoc` is called once and the collection
grows by that one document.  The record's priority is the one computed from
`nearbyCount` (High from 6, Medium from 3, Low below), its status is
Pending, its title is the candidate title as typed and its location is the
candidate position.  When image compression fails or the `GeoPoint`
constructor throws, the accepted submission persists nothing: `addDoc` is
not called and the error is shown.  In every run, a record handed to
`addDoc` has the fields above. -/
theorem accepted_submission_persists_one_record (rt : Runtime)
    (geoPoint : JsNum → JsNum → Except String GeoPoint) (store : List Doc)
    (c : Component) (photo uid img id : String) (p : Priority)
    (hi : c.image = some photo) (hu : c.currentUser = some uid)
    (hGeo : geoPoint c.position.lat c.position.lng =
      Except.ok ⟨c.position.lat, c.position.lng⟩)
    (hAcc : intake rt c.title c.position (activeQuery store) = IntakeDecision.accepted p) :
    (∃ record : ComplaintData,
      (submit rt geoPoint store c img id).1.2.addDoc = some record ∧
      (submit rt geoPoint store c img id).2 = store ++ [⟨id, record⟩] ∧
      record.priority = p.label ∧
      p = priorityOf (scan rt c.title c.position (activeQuery store)).nearbyCount ∧
      (6 ≤ (scan rt c.title c.position (activeQuery store)).nearbyCount →
        record.priority = "High") ∧
      (3 ≤ (scan rt c.title c.position (activeQuery store)).nearbyCount ∧
          (scan rt c.title c.position (activeQuery store)).nearbyCount < 6 →
        record.priority = "Medium") ∧
      ((scan rt c.title c.position (activeQuery store)).nearbyCount < 3 →
        record.priority = "Low") ∧
      (record.priority = "Low" ∨ record.priority = "Medium" ∨ record.priority = "High") ∧
      record.status = "Pending" ∧
      record.title = some c.title ∧
      record.location = some ⟨c.position.lat, c.position.lng⟩ ∧
      (submit rt geoPoint store c img id).1.1.success =
        "Report successfully submitted! Priority: " ++ p.label) ∧
    (∀ (fetch : Await (List Doc)) (compressed added : Await String) (r : ComplaintData),
      (handleSubmit rt geoPoint c fetch compressed added).2.addDoc = some r →
      r.status = "Pending" ∧ r.title = some c.title ∧
        r.location = some ⟨c.position.lat, c.position.lng⟩ ∧
        (r.priority = "Low" ∨ r.priority = "Medium" ∨ r.priority = "High")) ∧
    (∀ (m : String) (added : Await String),
      handleSubmit rt geoPoint c (Await.resolved (activeQuery store)) (Await.rejected m)
          added =
        ({ c with loading := false, error := "Error: " ++ m }, ⟨true, none, none⟩)) ∧
    (∀ (throwing : JsNum → JsNum → Except String GeoPoint) (m : String)
      (added : Await String),
      throwing c.position.lat c.position.lng = Except.error m →
      handleSubmit rt throwing c (Await.resolved (activeQuery store)) (Await.resolved img)
          added =
        ({ c with loading := false, error := "Error: " ++ m }, ⟨true, none, none⟩)) := by
  have hr := handleSubmit_of_accepted_resolved rt geoPoint c (activeQuery store) photo uid
    img id _ p hi hu hGeo hAcc
  have hp := (intake_accepted_priority rt _ _ _ p hAcc).1
  refine ⟨?_, ?_, ?_, ?_⟩
  · refine ⟨{ citizenId := uid, title := some c.title, category := c.category,
              description := c.description, imageUrl := img,
              location := some ⟨c.position.lat, c.position.lng⟩,
              status := "Pending", priority := p.label }, ?_⟩
    have hsub : submit rt geoPoint store c img id =
        (handleSubmit rt geoPoint c (Await.resolved (activeQuery store))
            (Await.resolved img) (Await.resolved id),
          storeAfter store id (handleSubmit rt geoPoint c (Await.resolved (activeQuery store))
            (Await.resolved img) (Await.resolved id)).2) := rfl
    rw [hsub, hr]
    refine ⟨rfl, rfl, rfl, hp, ?_, ?_, ?_, label_cases p, rfl, rfl, rfl, rfl⟩
    · intro h6
      show p.label = "High"
      rw [hp]
      simp only [priorityOf, ge_iff_le, h6, if_true, Priority.label]
    · rintro ⟨h3, h6⟩
      have hn6 : ¬ 6 ≤ (scan rt c.title c.position (activeQuery store)).nearbyCount := by
        omega
      show p.label = "Medium"
      rw [hp]
      simp only [priorityOf, ge_iff_le, hn6, h3, if_true, if_false, Priority.label]
    · intro h3
      have hn6 : ¬ 6 ≤ (scan rt c.title c.position (activeQuery store)).nearbyCount := by
        omega
      have hn3 : ¬ 3 ≤ (scan rt c.title c.position (activeQuery store)).nearbyCount := by
        omega
      show p.label = "Low"
      rw [hp]
      simp only [priorityOf, ge_iff_le, hn6, hn3, if_false, Priority.label]
  · intro fetch compressed added r h
    obtain ⟨h1, h2, h3, _, _, _, loc, h4, h5⟩ :=
      handleSubmit_record rt geoPoint c fetch compressed added r h
    rw [hGeo] at h5
    injection h5 with h5
    exact ⟨h1, h2, by rw [h4, h5], h3⟩
  · intro m added
    exact handleSubmit_of_compress_rejected rt geoPoint c _ added photo uid m p hi hu hAcc
  · intro throwing m added hg
    exact handleSubmit_of_geoPoint_error rt throwing c _ added photo uid img m p hi hu hAcc hg

/-- Witness for C21 (amended): the pothole form against three nearby reports
is accepted with Medium and persisted as one record. -/
theorem accepted_submission_persists_one_record_witness :
    intake streetRuntime potholeForm.title potholeForm.position (activeQuery threeNearby) =
      IntakeDecision.accepted Priority.Medium ∧
    ∃ record : ComplaintData,
      (submit streetRuntime checkedGeoPoint threeNearby potholeForm
        "data:image/jpeg;base64,AAAA" "new-id").2 = threeNearby ++ [⟨"new-id", record⟩] ∧
      record.priority = "Medium" ∧ record.status = "Pending" ∧
      record.title = some "Pothole on Main St" := by
  have hAcc : intake streetRuntime potholeForm.title potholeForm.position
      (activeQuery threeNearby) = IntakeDecision.accepted Priority.Medium := by
    show intake streetRuntime "Pothole on Main St" origin _ = _
    simp [intake_eq, activeQuery, threeNearby, reportAt_status, withinMeters_reportAt,
      titleMatches_reportAt, List.countP_cons]
    decide
  obtain ⟨record, _, h2, h3, _, _, _, _, _, h9, h10, _⟩ :=
    (accepted_submission_persists_one_record streetRuntime checkedGeoPoint threeNearby
      potholeForm "photo-1.jpg" "uid-1" "data:image/jpeg;base64,AAAA" "new-id"
      Priority.Medium rfl rfl checkedGeoPoint_origin hAcc).1
  exact ⟨hAcc, record, h2, h3, h9, h10⟩

/-- Counterexample to C21 as stated: two submissions that the intake step
accepts and that persist no record.  With the pin at longitude 190 the
`GeoPoint` constructor throws after the decision; with a valid pin the image
compression fails.  In both runs `addDoc` is not called, the collection
stays empty, no success message is set and an error is shown. -/
theorem accepted_submission_without_record :
    intake streetRuntime outOfRangeForm.title outOfRangeForm.position (activeQuery []) =
      IntakeDecision.accepted Priority.Low ∧
    (submit streetRuntime checkedGeoPoint [] outOfRangeForm
      "data:image/jpeg;base64,AAAA" "new-id").1.2.addDoc = none ∧
    (submit streetRuntime checkedGeoPoint [] outOfRangeForm
      "data:image/jpeg;base64,AAAA" "new-id").2 = [] ∧
    (submit streetRuntime checkedGeoPoint [] outOfRangeForm
      "data:image/jpeg;base64,AAAA" "new-id").1.1.success = "" ∧
    (submit streetRuntime checkedGeoPoint [] outOfRangeForm
      "data:image/jpeg;base64,AAAA" "new-id").1.1.error =
        "Error: Longitude must be a number between -180 and 180" ∧
    intake streetRuntime potholeForm.title potholeForm.position [] =
      IntakeDecision.accepted Priority.Low ∧
    handleSubmit streetRuntime checkedGeoPoint potholeForm (Await.resolved [])
        (Await.rejected "undefined") (Await.resolved "new-id") =
      ({ potholeForm with loading := false, error := "Error: undefined" },
        ⟨true, none, none⟩) := by
  have hA : intake streetRuntime outOfRangeForm.title outOfRangeForm.position
      (activeQuery []) = IntakeDecision.accepted Priority.Low := rfl
  have hB : intake streetRuntime potholeForm.title potholeForm.position [] =
      IntakeDecision.accepted Priority.Low := rfl
  have hg : checkedGeoPoint outOfRangeForm.position.lat outOfRangeForm.position.lng =
      Except.error "Longitude must be a number between -180 and 180" :=
    checkedGeoPoint_lng_190
  have hrun := handleSubmit_of_geoPoint_error streetRuntime checkedGeoPoint outOfRangeForm
    (activeQuery []) (Await.resolved "new-id") "photo-1.jpg" "uid-1"
    "data:image/jpeg;base64,AAAA" _ Priority.Low rfl rfl hA hg
  have hsub : submit streetRuntime checkedGeoPoint [] outOfRangeForm
      "data:image/jpeg;base64,AAAA" "new-id" =
      (handleSubmit streetRuntime checkedGeoPoint outOfRangeForm
          (Await.resolved (activeQuery [])) (Await.resolved "data:image/jpeg;base64,AAAA")
          (Await.resolved "new-id"),
        storeAfter [] "new-id" (handleSubmit streetRuntime checkedGeoPoint outOfRangeForm
          (Await.resolved (activeQuery [])) (Await.resolved "data:image/jpeg;base64,AAAA")
          (Await.resolved "new-id")).2) := rfl
  rw [hsub, hrun]
  refine ⟨hA, rfl, rfl, rfl, by decide, hB, ?_⟩
  have h2 := handleSubmit_of_compress_rejected streetRuntime checkedGeoPoint potholeForm []
    (Await.resolved "new-id") "photo-1.jpg" "uid-1" "undefined" Priority.Low rfl rfl hB
  rw [h2]
  congr 1

/-- C24. Sequential resubmission is blocked.  Starting from any collection,
when a submission with title `t` at position `p` is accepted and persisted,
a following submission with the same normalized title at the same position
(the distance from `p` to `p` being 0) is rejected as a duplicate: it ends
with the duplicate message, `addDoc` is not called and the collection is
left as the first submission left it, with one new record. -/
theorem sequential_resubmission_rejected (rt : Runtime)
    (geoPoint : JsNum → JsNum → Except String GeoPoint) (store : List Doc)
    (c1 c2 : Component) (photo1 uid1 photo2 uid2 img1 img2 id1 id2 : String) (p : Priority)
    (hi1 : c1.image = some photo1) (hu1 : c1.currentUser = some uid1)
    (hi2 : c2.image = some photo2) (hu2 : c2.currentUser = some uid2)
    (hGeo : geoPoint c1.position.lat c1.position.lng =
      Except.ok ⟨c1.position.lat, c1.position.lng⟩)
    (hAcc : intake rt c1.title c1.position (activeQuery store) = IntakeDecision.accepted p)
    (hTitle : rt.trim (rt.toLowerCase c2.title) = rt.trim (rt.toLowerCase c1.title))
    (hPos : c2.position = c1.position)
    (hSelf : rt.calculateDistance c1.position.lat c1.position.lng
      c1.position.lat c1.position.lng = JsNum.num 0) :
    ∃ record : ComplaintData,
      (submit rt geoPoint store c1 img1 id1).2 = store ++ [⟨id1, record⟩] ∧
      record.title = some c1.title ∧
      (submit rt geoPoint (submit rt geoPoint store c1 img1 id1).2 c2 img2 id2).1.2.addDoc =
        none ∧
      (submit rt geoPoint (submit rt geoPoint store c1 img1 id1).2 c2 img2 id2).1.1.error =
        duplicateMessage c2.title ∧
      (submit rt geoPoint (submit rt geoPoint store c1 img1 id1).2 c2 img2 id2).2 =
        store ++ [⟨id1, record⟩] := by
  have hr := handleSubmit_of_accepted_resolved rt geoPoint c1 (activeQuery store) photo1 uid1
    img1 id1 _ p hi1 hu1 hGeo hAcc
  have hs1 : (submit rt geoPoint store c1 img1 id1).2 =
      store ++ [⟨id1,
        { citizenId := uid1, title := some c1.title, category := c1.category,
          description := c1.description, imageUrl := img1,
          location := some ⟨c1.position.lat, c1.position.lng⟩,
          status := "Pending", priority := p.label }⟩] := by
    simp only [submit, hr, storeAfter]
  refine ⟨_, hs1, rfl, ?_⟩
  rw [hs1]
  have hDup : ∃ doc ∈ activeQuery (store ++ [⟨id1,
        { citizenId := uid1, title := some c1.title, category := c1.category,
          description := c1.description, imageUrl := img1,
          location := some ⟨c1.position.lat, c1.position.lng⟩,
          status := "Pending", priority := p.label }⟩]),
      titleMatches rt c2.title doc.data = true ∧
        withinMeters rt c2.position 100 doc = true := by
    rw [activeQuery_append_pending _ _ _ rfl]
    refine ⟨_, List.mem_append_right _ (List.mem_singleton.mpr rfl), ?_, ?_⟩
    · simp [titleMatches, normalize, hTitle]
    · simp [withinMeters, distTo, hPos, hSelf, JsNum.le, JsNum.lit]
  have hd := intake_of_duplicate rt c2.title c2.position _ hDup
  have hr2 := handleSubmit_of_rejected rt geoPoint c2 _ (Await.resolved img2)
    (Await.resolved id2) photo2 uid2 _ hi2 hu2 hd
  have hsub : ∀ st : List Doc, submit rt geoPoint st c2 img2 id2 =
      (handleSubmit rt geoPoint c2 (Await.resolved (activeQuery st))
          (Await.resolved img2) (Await.resolved id2),
        storeAfter st id2 (handleSubmit rt geoPoint c2 (Await.resolved (activeQuery st))
          (Await.resolved img2) (Await.resolved id2)).2) := fun _ => rfl
  rw [hsub, hr2]
  exact ⟨rfl, rfl, rfl⟩

/-- Witness for C24: the pothole form is persisted into an empty collection
and then submitted again with the title in capitals and a trailing blank;
the collection keeps its single record. -/
theorem sequential_resubmission_rejected_witness :
    ∃ record : ComplaintData,
      (submit streetRuntime checkedGeoPoint [] potholeForm
        "data:image/jpeg;base64,AAAA" "id-1").2 = [⟨"id-1", record⟩] ∧
      (submit streetRuntime checkedGeoPoint
        (submit streetRuntime checkedGeoPoint [] potholeForm
          "data:image/jpeg;base64,AAAA" "id-1").2
        { potholeForm with title := "POTHOLE ON MAIN ST " }
        "data:image/jpeg;base64,AAAA" "id-2").2 = [⟨"id-1", record⟩] := by
  obtain ⟨record, h1, _, _, _, h5⟩ :=
    sequential_resubmission_rejected streetRuntime checkedGeoPoint [] potholeForm
      { potholeForm with title := "POTHOLE ON MAIN ST " }
      "photo-1.jpg" "uid-1" "photo-1.jpg" "uid-1"
      "data:image/jpeg;base64,AAAA" "data:image/jpeg;base64,AAAA" "id-1" "id-2"
      Priority.Low rfl rfl rfl rfl checkedGeoPoint_origin rfl (by decide) rfl
      streetDistance_origin
  exact ⟨record, h1, h5⟩

/-! ## Monotonicity in the snapshot, entries with missing fields, guards -/

/-- C25. Rejection is monotone in the snapshot: a candidate rejected against a
snapshot is rejected against every snapshot that contains all its entries. -/
theorem rejection_monotone_in_snapshot (rt : Runtime) (title : String) (position : LatLng)
    (s1 s2 : List Doc) (hSub : ∀ d ∈ s1, d ∈ s2) (msg : String)
    (hRej : intake rt title position s1 = IntakeDecision.rejected msg) :
    intake rt title position s2 = IntakeDecision.rejected msg ∧
      ¬ ∃ p, intake rt title position s2 = IntakeDecision.accepted p := by
  have hmsg := intake_rejected_message rt title position s1 msg hRej
  subst hmsg
  rw [intake_eq] at hRej
  have hany : s1.any (fun doc =>
      titleMatches rt title doc.data && withinMeters rt position 100 doc) = true := by
    by_contra hne
    rw [if_neg hne] at hRej
    cases hRej
  obtain ⟨d, hd, hp⟩ := List.any_eq_true.mp hany
  rw [Bool.and_eq_true] at hp
  have h2 := intake_of_duplicate rt title position s2 ⟨d, hSub d hd, hp.1, hp.2⟩
  refine ⟨h2, ?_⟩
  rintro ⟨p, hp2⟩
  rw [h2] at hp2
  cases hp2

/-- Witness for C25: a duplicate stays a duplicate when three other reports
are added in front. -/
theorem rejection_monotone_in_snapshot_witness :
    intake streetRuntime "Pothole on Main St" origin
        [reportAt "c1" "pothole on main st" 80] =
      IntakeDecision.rejected (duplicateMessage "Pothole on Main St") ∧
    intake streetRuntime "Pothole on Main St" origin
        (threeNearby ++ [reportAt "c1" "pothole on main st" 80]) =
      IntakeDecision.rejected (duplicateMessage "Pothole on Main St") :=
  have h : intake streetRuntime "Pothole on Main St" origin
      [reportAt "c1" "pothole on main st" 80] =
      IntakeDecision.rejected (duplicateMessage "Pothole on Main St") := by
    simp [intake_eq, withinMeters_reportAt, titleMatches_reportAt]
    decide
  ⟨h, (rejection_monotone_in_snapshot streetRuntime _ origin _
    (threeNearby ++ [reportAt "c1" "pothole on main st" 80])
    (fun _ hd => List.mem_append_right _ hd) _ h).1⟩

/-- C26. Priority is monotone in the snapshot: when a candidate is accepted
against a snapshot and against a larger one, containing every entry of the
first as often as the first does, the priority against the larger one is at
least the priority against the smaller (Low ≤ Medium ≤ High). -/
theorem priority_monotone_in_snapshot (rt : Runtime) (title : String) (position : LatLng)
    (s1 s2 : List Doc) (hSub : s1.Subperm s2) (p1 p2 : Priority)
    (h1 : intake rt title position s1 = IntakeDecision.accepted p1)
    (h2 : intake rt title position s2 = IntakeDecision.accepted p2) :
    p1 ≤ p2 ∧ p1.rank ≤ p2.rank ∧
      (scan rt title position s1).nearbyCount ≤ (scan rt title position s2).nearbyCount := by
  have e1 := (intake_accepted_priority rt title position s1 p1 h1).1
  have e2 := (intake_accepted_priority rt title position s2 p2 h2).1
  have hc : (scan rt title position s1).nearbyCount ≤
      (scan rt title position s2).nearbyCount := by
    rw [scan_nearbyCount, scan_nearbyCount]
    exact List.Subperm.countP_le _ hSub
  subst e1 e2
  exact ⟨priorityOf_mono hc, priorityOf_mono hc, hc⟩

/-- Witness for C26: two nearby reports give Low, the three that contain them
give Medium. -/
theorem priority_monotone_in_snapshot_witness :
    twoNearby.Subperm threeNearby ∧
    intake streetRuntime "Pothole on Main St" origin twoNearby =
      IntakeDecision.accepted Priority.Low ∧
    intake streetRuntime "Pothole on Main St" origin threeNearby =
      IntakeDecision.accepted Priority.Medium ∧
    Priority.Low ≤ Priority.Medium :=
  have hSub : twoNearby.Subperm threeNearby :=
    List.Sublist.subperm (by
      show List.Sublist twoNearby (twoNearby ++ [reportAt "c" "Open manhole" 150])
      exact List.sublist_append_left _ _)
  have h1 : intake streetRuntime "Pothole on Main St" origin twoNearby =
      IntakeDecision.accepted Priority.Low := by
    simp [intake_eq, twoNearby, withinMeters_reportAt, titleMatches_reportAt,
      List.countP_cons]
    decide
  have h2 : intake streetRuntime "Pothole on Main St" origin threeNearby =
      IntakeDecision.accepted Priority.Medium := by
    simp [intake_eq, threeNearby, withinMeters_reportAt, titleMatches_reportAt,
      List.countP_cons]
    decide
  ⟨hSub, h1, h2,
    (priority_monotone_in_snapshot streetRuntime _ origin _ _ hSub _ _ h1 h2).1⟩

/-- C27. Snapshot entries without a location are ignored entirely: removing
all of them, or any one of them, leaves `isDuplicate`, `nearbyCount` and the
decision unchanged, whatever the title of such an entry.  An entry with a
location but without a title never sets `isDuplicate`, and it adds 1 to
`nearbyCount` exactly when it lies within 250 m. -/
theorem entries_without_location_or_title (rt : Runtime) (title : String)
    (position : LatLng) (snapshot : List Doc) :
    scan rt title position (snapshot.filter (fun d => d.data.location.isSome)) =
      scan rt title position snapshot ∧
    intake rt title position (snapshot.filter (fun d => d.data.location.isSome)) =
      intake rt title position snapshot ∧
    (∀ (d : Doc) (before after : List Doc), d.data.location = none →
      scan rt title position (before ++ d :: after) =
          scan rt title position (before ++ after) ∧
        intake rt title position (before ++ d :: after) =
          intake rt title position (before ++ after)) ∧
    (∀ (d : Doc) (before after : List Doc), d.data.title = none →
      (scan rt title position (before ++ d :: after)).isDuplicate =
          (scan rt title position (before ++ after)).isDuplicate ∧
        (scan rt title position (before ++ d :: after)).nearbyCount =
          (scan rt title position (before ++ after)).nearbyCount +
            (if withinMeters rt position 250 d = true then 1 else 0) ∧
        intake rt title position [d] =
          IntakeDecision.accepted (priorityOf (if withinMeters rt position 250 d = true
            then 1 else 0))) := by
  have hf := scan_filter_located rt title position snapshot
  refine ⟨hf, by simp only [intake, hf], ?_, ?_⟩
  · intro d before after hl
    have hw : ∀ r, withinMeters rt position r d = false := by
      intro r
      simp [withinMeters, hl]
    have hs : scan rt title position (before ++ d :: after) =
        scan rt title position (before ++ after) := by
      simp only [scan, foldl_scanStep]
      simp [List.countP_append, List.countP_cons, hw]
    exact ⟨hs, by simp only [intake, hs]⟩
  · intro d before after ht
    have hm : titleMatches rt title d.data = false := by
      simp [titleMatches, ht]
    refine ⟨?_, ?_, ?_⟩
    · simp only [scan, foldl_scanStep]
      simp [hm]
    · simp only [scan, foldl_scanStep, List.countP_append, List.countP_cons]
      split_ifs <;> omega
    · rw [intake_eq]
      simp only [List.any_cons, List.any_nil, hm, Bool.false_and, Bool.or_false,
        Bool.false_eq_true, if_false, List.countP_cons, List.countP_nil, Nat.zero_add]

/-- C28. `handleSubmit` refuses a submission before touching the store when a
precondition is missing.  Without a photo it only sets the error 'Please
upload a photo of the issue.'; with a photo but without a logged-in user it
only sets 'You must be logged in to submit a report.'.  In both cases
`getDocs` and `addDoc` are not called and no navigation is scheduled,
whatever the store and the browser would have answered. -/
theorem guards_refuse_before_store (rt : Runtime)
    (geoPoint : JsNum → JsNum → Except String GeoPoint) (c : Component)
    (fetch : Await (List Doc)) (compressed added : Await String) :
    (c.image = none →
      handleSubmit rt geoPoint c fetch compressed added =
        ({ c with error := "Please upload a photo of the issue." },
          ⟨false, none, none⟩)) ∧
    (∀ photo : String, c.image = some photo → c.currentUser = none →
      handleSubmit rt geoPoint c fetch compressed added =
        ({ c with error := "You must be logged in to submit a report." },
          ⟨false, none, none⟩)) ∧
    ((c.image = none ∨ c.currentUser = none) →
      (handleSubmit rt geoPoint c fetch compressed added).2.fetched = false ∧
        (handleSubmit rt geoPoint c fetch compressed added).2.addDoc = none ∧
        (handleSubmit rt geoPoint c fetch compressed added).2.navigate = none) := by
  refine ⟨?_, ?_, ?_⟩
  · intro hi
    simp only [handleSubmit, hi]
  · intro photo hi hu
    simp only [handleSubmit, hi, hu]
  · intro h
    unfold handleSubmit
    cases hi : c.image with
    | none => exact ⟨rfl, rfl, rfl⟩
    | some photo =>
      have hu : c.currentUser = none := by
        rcases h with h | h
        · rw [hi] at h
          cases h
        · exact h
      simp [hu]

/-- Witness for C28: the pothole form without a photo, and with a photo but
without a user, against a store that would have answered. -/
theorem guards_refuse_before_store_witness :
    handleSubmit streetRuntime checkedGeoPoint formWithoutPhoto (Await.resolved threeNearby)
        (Await.resolved "data:image/jpeg;base64,AAAA") (Await.resolved "new-id") =
      ({ formWithoutPhoto with error := "Please upload a photo of the issue." },
        ⟨false, none, none⟩) ∧
    handleSubmit streetRuntime checkedGeoPoint formWithoutUser (Await.resolved threeNearby)
        (Await.resolved "data:image/jpeg;base64,AAAA") (Await.resolved "new-id") =
      ({ formWithoutUser with error := "You must be logged in to submit a report." },
        ⟨false, none, none⟩) :=
  ⟨(guards_refuse_before_store streetRuntime checkedGeoPoint formWithoutPhoto _ _ _).1 rfl,
    (guards_refuse_before_store streetRuntime checkedGeoPoint formWithoutUser _ _ _).2.1
      "photo-1.jpg" rfl rfl⟩

/-! ## Registration -/

/-- C22. In `Register`, a registration with role 'admin' reaches `signup` only
when the entered admin code equals the secret key.  For every other admin
code `signup` is not called, nothing is navigated to and the error 'Invalid
Official Access Code. Registration denied.' is set, the rest of the state
being left alone.  With the right code, and for role 'citizen' whatever the
admin code, `signup` is called with the entered email, password, name and
role. -/
theorem admin_code_gate (s : Register.State) (signedUp : Await Unit) :
    (s.role = "admin" → s.adminCode ≠ Register.SECRET_ADMIN_KEY →
      Register.handleSubmit s signedUp =
        ({ s with error := "Invalid Official Access Code. Registration denied." },
          ⟨none, none⟩)) ∧
    (s.role = "admin" → (Register.handleSubmit s signedUp).2.signup ≠ none →
      s.adminCode = "123456789") ∧
    (s.role = "admin" → s.adminCode = Register.SECRET_ADMIN_KEY →
      (Register.handleSubmit s signedUp).2.signup =
        some (s.email, s.password, s.name, s.role)) ∧
    (s.role = "citizen" →
      (Register.handleSubmit s signedUp).2.signup =
          some (s.email, s.password, s.name, s.role) ∧
        (Register.handleSubmit s signedUp).1.error ≠
          "Invalid Official Access Code. Registration denied.") := by
  have hgo : ¬ (s.role = "admin" ∧ s.adminCode ≠ Register.SECRET_ADMIN_KEY) →
      (Register.handleSubmit s signedUp).2.signup =
          some (s.email, s.password, s.name, s.role) ∧
        (Register.handleSubmit s signedUp).1.error ≠
          "Invalid Official Access Code. Registration denied." := by
    intro hn
    unfold Register.handleSubmit
    rw [if_neg hn]
    cases signedUp with
    | pending => exact ⟨rfl, by simp⟩
    | rejected m => exact ⟨rfl, by simp⟩
    | resolved v => exact ⟨rfl, by simp⟩
  refine ⟨?_, ?_, ?_, ?_⟩
  · intro hr hc
    unfold Register.handleSubmit
    rw [if_pos ⟨hr, hc⟩]
  · intro hr hcall
    by_contra hc
    apply hcall
    unfold Register.handleSubmit
    rw [if_pos ⟨hr, hc⟩]
  · intro _ hc
    exact (hgo (fun h => h.2 hc)).1
  · intro hr
    apply hgo
    intro h
    rw [hr] at h
    exact absurd h.1 (by decide)

/-- Witness for C22: an official with a wrong code is denied, and one with the
right code reaches `signup` and the admin dashboard. -/
theorem admin_code_gate_witness :
    Register.handleSubmit (officialForm "letmein") (Await.resolved ()) =
      ({ officialForm "letmein" with
          error := "Invalid Official Access Code. Registration denied." }, ⟨none, none⟩) ∧
    (Register.handleSubmit (officialForm "123456789") (Await.resolved ())).2.signup =
      some ("asha@city.example", "correct horse", "Asha", "admin") ∧
    (Register.handleSubmit (officialForm "123456789") (Await.resolved ())).2.navigate =
      some "/admin/dashboard" :=
  ⟨(admin_code_gate (officialForm "letmein") (Await.resolved ())).1 rfl (by decide),
    (admin_code_gate (officialForm "123456789") (Await.resolved ())).2.2.1 rfl rfl,
    by decide⟩

/-! ## The dashboards -/

/-- C29. In `CitizenDashboard` the displayed list is the full list of reports
when the filter is `null`, and for a selected status it is exactly the
reports whose status equals the filter, in their original order.
`handleFilterClick` toggles: clicking the selected status resets the filter
to `null`, clicking another status (or any status when none is selected)
selects it, and clicking the same status twice from `null` gives `null`
again. -/
theorem filter_and_toggle (reports : List Report) :
    CitizenDashboard.filteredReports none reports = reports ∧
    (∀ f : String, f ≠ "" →
      CitizenDashboard.filteredReports (some f) reports =
          reports.filter (fun r => r.status == some f) ∧
        (CitizenDashboard.filteredReports (some f) reports).Sublist reports ∧
        ∀ r : Report, r ∈ CitizenDashboard.filteredReports (some f) reports ↔
          r ∈ reports ∧ r.status = some f) ∧
    (∀ f : String, CitizenDashboard.handleFilterClick (some f) f = none) ∧
    (∀ f g : String, f ≠ g → CitizenDashboard.handleFilterClick (some f) g = some g) ∧
    (∀ g : String, CitizenDashboard.handleFilterClick none g = some g) ∧
    (∀ g : String,
      CitizenDashboard.handleFilterClick (CitizenDashboard.handleFilterClick none g) g =
        none) := by
  refine ⟨rfl, ?_, ?_, ?_, ?_, ?_⟩
  · intro f hf
    have h : CitizenDashboard.filteredReports (some f) reports =
        reports.filter (fun r => r.status == some f) := by
      simp [CitizenDashboard.filteredReports, hf]
    rw [h]
    refine ⟨rfl, List.filter_sublist _, ?_⟩
    intro r
    simp [List.mem_filter]
  · intro f
    simp [CitizenDashboard.handleFilterClick]
  · intro f g hfg
    simp [CitizenDashboard.handleFilterClick, hfg]
  · intro g
    simp [CitizenDashboard.handleFilterClick]
  · intro g
    simp [CitizenDashboard.handleFilterClick]

/-- Witness for C29: the sample reports filtered by 'Pending'. -/
theorem filter_and_toggle_witness :
    CitizenDashboard.filteredReports (some "Pending") sampleReports =
      [⟨"r1", some "Pending", some "Low"⟩, ⟨"r4", some "Pending", some "Medium"⟩] ∧
    CitizenDashboard.handleFilterClick (some "Pending") "Resolved" = some "Resolved" :=
  ⟨((filter_and_toggle sampleReports).2.1 "Pending" (by decide)).1.trans (by decide),
    (filter_and_toggle sampleReports).2.2.2.1 "Pending" "Resolved" (by decide)⟩

/-- C30. In `CitizenDashboard` the counters satisfy
resolved + inProgress + pending ≤ total, with equality exactly when every
report has one of the statuses 'Resolved', 'In Progress' and 'Pending'.  In
`AdminDashboard` the counter `high` is the number of complaints with
priority 'High' whose status is not 'Resolved', and it never exceeds
total − resolved. -/
theorem dashboard_counters (reports : List Report) :
    (CitizenDashboard.stats reports).resolved + (CitizenDashboard.stats reports).inProgress +
        (CitizenDashboard.stats reports).pending ≤ (CitizenDashboard.stats reports).total ∧
    ((CitizenDashboard.stats reports).resolved + (CitizenDashboard.stats reports).inProgress +
        (CitizenDashboard.stats reports).pending = (CitizenDashboard.stats reports).total ↔
      ∀ r ∈ reports, r.status = some "Resolved" ∨ r.status = some "In Progress" ∨
        r.status = some "Pending") ∧
    (AdminDashboard.stats reports).high =
      reports.countP (fun c => c.priority == some "High" && c.status != some "Resolved") ∧
    (AdminDashboard.stats reports).high ≤
      (AdminDashboard.stats reports).total - (AdminDashboard.stats reports).resolved ∧
    (AdminDashboard.stats reports).resolved ≤ (AdminDashboard.stats reports).total := by
  have hc := status_counts reports
  have hh := high_le_unresolved reports
  have hother : reports.countP (fun r => !(r.status == some "Resolved" ||
        r.status == some "In Progress" || r.status == some "Pending")) = 0 ↔
      ∀ r ∈ reports, r.status = some "Resolved" ∨ r.status = some "In Progress" ∨
        r.status = some "Pending" := by
    rw [List.countP_eq_zero]
    constructor
    · intro hz r hr
      have hn := hz r hr
      by_cases h1 : r.status = some "Resolved"
      · exact Or.inl h1
      · by_cases h2 : r.status = some "In Progress"
        · exact Or.inr (Or.inl h2)
        · by_cases h3 : r.status = some "Pending"
          · exact Or.inr (Or.inr h3)
          · exact absurd (by simp [h1, h2, h3]) hn
    · intro hall r hr
      rcases hall r hr with h | h | h <;> simp [h]
  refine ⟨?_, ?_, ?_, ?_, ?_⟩
  · simp only [CitizenDashboard.stats, ← List.countP_eq_length_filter]
    omega
  · rw [← hother]
    simp only [CitizenDashboard.stats, ← List.countP_eq_length_filter]
    omega
  · simp only [AdminDashboard.stats, List.countP_eq_length_filter]
  · simp only [AdminDashboard.stats, ← List.countP_eq_length_filter]
    omega
  · simp only [AdminDashboard.stats, ← List.countP_eq_length_filter]
    omega

/-! ## The order of normalization -/

/-- C23. The order of the code (lower-case, then trim) and the order of the
specification (trim, then lower-case) give the same string for every title,
and normalization is idempotent; so two titles have equal normalized forms
in one order exactly when they have in the other.  This holds for every
runtime whose `trim` is the ECMAScript one and whose `toLowerCase` leaves
surrounding white space in place, gives a string without leading or
trailing white space when given one, and is idempotent. -/
theorem normalization_order_equivalent (rt : Runtime)
    (hTrim : ∀ s : String, rt.trim s = jsTrim s)
    (hPad : ∀ l s r : String, (∀ c ∈ l.data, jsWhiteSpace c = true) →
      (∀ c ∈ r.data, jsWhiteSpace c = true) →
      rt.toLowerCase (l ++ s ++ r) = l ++ rt.toLowerCase s ++ r)
    (hKeep : ∀ x : String, jsTrim x = x → jsTrim (rt.toLowerCase x) = rt.toLowerCase x)
    (hIdem : ∀ x : String, rt.toLowerCase (rt.toLowerCase x) = rt.toLowerCase x) :
    (∀ s : String, rt.trim (rt.toLowerCase s) = rt.toLowerCase (rt.trim s)) ∧
    (∀ s : String, normalize rt s = specNormalize rt s) ∧
    (∀ s : String, normalize rt (normalize rt s) = normalize rt s) ∧
    (∀ s : String, specNormalize rt (specNormalize rt s) = specNormalize rt s) ∧
    (∀ s t : String, normalize rt s = normalize rt t ↔
      specNormalize rt s = specNormalize rt t) := by
  have hcomm : ∀ s : String, rt.trim (rt.toLowerCase s) = rt.toLowerCase (rt.trim s) := by
    intro s
    obtain ⟨l, r, hl, hr, hs⟩ := jsTrim_decompose s
    have hlow : rt.toLowerCase s = l ++ rt.toLowerCase (jsTrim s) ++ r := by
      have h := hPad l (jsTrim s) r hl hr
      rw [← hs] at h
      exact h
    rw [hTrim, hTrim, hlow, jsTrim_pad l _ r hl hr, hKeep _ (jsTrim_idem s)]
  have hnorm : ∀ s : String, normalize rt s = specNormalize rt s := hcomm
  have hidem : ∀ s : String, normalize rt (normalize rt s) = normalize rt s := by
    intro s
    have h1 : normalize rt s = rt.toLowerCase (jsTrim s) := by
      rw [hnorm, specNormalize, hTrim]
    rw [h1]
    unfold normalize
    rw [hIdem, hTrim, hKeep _ (jsTrim_idem s)]
  refine ⟨hcomm, hnorm, hidem, ?_, ?_⟩
  · intro s
    rw [← hnorm, ← hnorm, hidem]
  · intro s t
    rw [hnorm, hnorm]

/-- Witness for C23: the runtime with the ECMAScript `trim` and the ASCII
lower-casing, on a padded title. -/
theorem normalization_order_equivalent_witness :
    asciiRuntime.trim (asciiRuntime.toLowerCase " \tPothole on Main St \n") =
      asciiRuntime.toLowerCase (asciiRuntime.trim " \tPothole on Main St \n") ∧
    normalize asciiRuntime " \tPothole on Main St \n" = "pothole on main st" ∧
    specNormalize asciiRuntime " \tPothole on Main St \n" = "pothole on main st" ∧
    normalize asciiRuntime (normalize asciiRuntime " \tPothole on Main St \n") =
      normalize asciiRuntime " \tPothole on Main St \n" :=
  have h := normalization_order_equivalent asciiRuntime (fun _ => rfl) asciiLower_pad
    asciiLower_keeps_trimmed asciiLower_idem
  ⟨h.1 _, by decide, by decide, h.2.2.1 _⟩

end CivicPortal
